import Mathlib

/-!
Verification of the Python tool layer of the unity-mcp-hy3d repository.

The tools under `src/Python/tools/` are shallowly embedded: each Python tool
function becomes a Lean function over an abstract environment `Env` that
answers the connection-acquisition call (`get_unity_connection`) and the
four dispatch channels found in the source (`UnityConnection.send_command`,
`ctx.send_command`, `ctx.call`, `ctx.bridge.unity_editor.<method>`).
Python exceptions are modelled by `Except String` (the string is `str(e)`),
and every dispatch performed by a tool is recorded in a trace so that
theorems can speak about which commands were sent.  JSON-compatible Python
values are modelled by `JsonValue`, with numbers as rationals.

The file `unity_connection.py` (class UnityConnection, `get_unity_connection`)
is imported by the tools but is not part of the staged sources; its
retry/reconnect behaviour is modelled from the specification (section 4.1)
in the definitions whose doc comments start with `Modelled from the spec`.
-/

namespace UnityMCP

/-- JSON-compatible Python value: `None`, `bool`, numbers (modelled as `ℚ`;
Python int/float distinction is not tracked), `str`, `list`, `dict`
(as an association list in insertion order). -/
inductive JsonValue where
  | null : JsonValue
  | bool (b : Bool) : JsonValue
  | num (q : ℚ) : JsonValue
  | str (s : String) : JsonValue
  | list (elems : List JsonValue) : JsonValue
  | obj (fields : List (String × JsonValue)) : JsonValue
  deriving Repr

/-- A Python dict with string keys, in insertion order. -/
abbrev Mapping := List (String × JsonValue)

/-- `m.get(k, d)`: first value bound to `k`, or the default `d`. -/
def mgetD (m : Mapping) (k : String) (d : JsonValue) : JsonValue :=
  match m.lookup k with
  | some v => v
  | none => d

/-- Python `k in m` for a dict. -/
def hasKey (m : Mapping) (k : String) : Bool :=
  (m.lookup k).isSome

/-- Python truthiness of a JSON-compatible value. -/
def pyTruthy : JsonValue → Bool
  | .null => false
  | .bool b => b
  | .num q => q != 0
  | .str s => s ≠ ""
  | .list xs => !xs.isEmpty
  | .obj fs => !fs.isEmpty

/-- Python `v == s` where `s` is a `str`: true exactly on equal strings
(mixed-type `==` is `False`, it does not raise). -/
def jeqStr : JsonValue → String → Bool
  | .str a, b => a == b
  | _, _ => false

/-- Python `v == q` where `q` is a number; `bool` compares as 0/1
(in Python `bool` is a subclass of `int`), mixed types are `False`. -/
def jeqNum : JsonValue → ℚ → Bool
  | .num a, b => a == b
  | .bool a, b => (if a then (1 : ℚ) else 0) == b
  | _, _ => false

/-- An optional string as a JSON value (`None` when absent). -/
def optJ : Option String → JsonValue
  | some s => .str s
  | none => .null

/-- An optional integer as a JSON value (`None` when absent). -/
def optIntJ : Option Int → JsonValue
  | some n => .num n
  | none => .null

/-- An optional bool as a JSON value (`None` when absent). -/
def optBoolJ : Option Bool → JsonValue
  | some b => .bool b
  | none => .null

/-- Python `path.split('/')[-1]`. -/
def basename (p : String) : String :=
  (p.splitOn "/").getLastD ""

/-- Python `'/'.join(path.split('/')[:-1])`. -/
def dirname (p : String) : String :=
  String.intercalate "/" ((p.splitOn "/").dropLast)

/-- Python `a or b` on strings (empty string is falsy). -/
def strOr (a b : String) : String :=
  if a == "" then b else a

/-- Python `xs or d` on an optional list argument (both `None` and `[]`
are falsy). -/
def listOr (xs : Option (List ℚ)) (d : List ℚ) : List ℚ :=
  match xs with
  | some l => if l = [] then d else l
  | none => d

/-- Python truthiness of an optional string argument (`None` and `""` falsy). -/
def optStrTruthy : Option String → Bool
  | some s => s ≠ ""
  | none => false

/-- A list of rationals as a JSON list of numbers. -/
def numListJ (l : List ℚ) : JsonValue :=
  .list (l.map .num)

/-- Rendering of a number in a message; abstracts Python's `str()` of
int/float (the precise float formatting is not modelled). -/
def numToStr (q : ℚ) : String :=
  if q.den = 1 then toString q.num else toString q.num ++ "/" ++ toString q.den

/-- Python `str(v)` as interpolated into f-strings.  Exact for strings,
booleans and `None`; the recursive repr of lists and dicts is abstracted
(no claim depends on it). -/
def pyStr : JsonValue → String
  | .null => "None"
  | .bool true => "True"
  | .bool false => "False"
  | .num q => numToStr q
  | .str s => s
  | .list _ => "<list>"
  | .obj _ => "<dict>"

/-- Compact JSON rendering, standing for Python's `json.dumps` (the source
passes `indent=2`; the layout is abstracted, no claim depends on it). -/
def jsonStr : JsonValue → String
  | .null => "null"
  | .bool true => "true"
  | .bool false => "false"
  | .num q => numToStr q
  | .str s => "\"" ++ s ++ "\""
  | .list xs => "[" ++ String.intercalate ", " (xs.attach.map (fun x => jsonStr x.1)) ++ "]"
  | .obj fs => "\x7b" ++
      String.intercalate ", "
        (fs.attach.map (fun f => "\"" ++ f.1.1 ++ "\": " ++ jsonStr f.1.2)) ++ "\x7d"
decreasing_by
  · have h := List.sizeOf_lt_of_mem x.2
    simp only [JsonValue.list.sizeOf_spec]
    omega
  · have h := List.sizeOf_lt_of_mem f.2
    have h2 : sizeOf f.1.2 < sizeOf f.1 := by
      obtain ⟨a, b⟩ := f.1
      simp only [Prod.mk.sizeOf_spec]
      omega
    simp only [JsonValue.obj.sizeOf_spec]
    omega

/-- `json.dumps` of a response mapping. -/
def jsonDumps (m : Mapping) : String :=
  jsonStr (.obj m)

/-- The four dispatch channels a tool can transmit through in the source:
`get_unity_connection().send_command`, `ctx.send_command`, `ctx.call`,
and `ctx.bridge.unity_editor.<method>`. -/
inductive Channel where
  | unityConn : Channel
  | ctxSend : Channel
  | ctxCall : Channel
  | ctxBridge : Channel
  deriving Repr, DecidableEq

/-- One transmission performed by a tool: the channel, the command name
(for `ctxCall`/`ctxBridge` the handler target or method name), and the
params mapping handed to the dispatch. -/
structure SentCmd where
  channel : Channel
  name : String
  params : Mapping

/-- The environment a tool runs against: outcomes of connection acquisition,
of each dispatch channel, and of the filesystem probes that `build` and
`import_asset` perform.  An `Except.error e` models a raised Python
exception with `str(e) = e`. -/
structure Env where
  getConn : Except String Unit
  send : String → Mapping → Except String Mapping
  ctxSend : String → Mapping → Except String Mapping
  ctxCall : String → Mapping → Except String Mapping
  ctxBridge : String → Mapping → Except String Mapping
  pathExists : String → Bool
  isFile : String → Bool
  isDir : String → Bool
  writable : String → Bool

/-- The effect monad of a tool body: a trace of transmissions is threaded
through, and a raised exception carries `str(e)`.  The trace survives an
exception, so theorems can speak about what was sent before the raise. -/
def M (α : Type) : Type :=
  List SentCmd → Except String α × List SentCmd

instance : Monad M where
  pure a := fun t => (.ok a, t)
  bind x f := fun t =>
    match x t with
    | (.ok a, t2) => f a t2
    | (.error e, t2) => (.error e, t2)

/-- Raise an exception. -/
def throwM {α : Type} (e : String) : M α :=
  fun t => (.error e, t)

/-- `get_unity_connection()`: succeeds or raises, transmits nothing. -/
def getConnM (env : Env) : M Unit :=
  fun t => (env.getConn, t)

/-- The environment's answer on a channel. -/
def chanFn (env : Env) : Channel → String → Mapping → Except String Mapping
  | .unityConn => env.send
  | .ctxSend => env.ctxSend
  | .ctxCall => env.ctxCall
  | .ctxBridge => env.ctxBridge

/-- Transmit `name`/`ps` on channel `ch`: the transmission is recorded on
the trace (also when the dispatch raises), and the environment's answer is
returned or raised. -/
def sendOn (env : Env) (ch : Channel) (name : String) (ps : Mapping) : M Mapping :=
  fun t => (chanFn env ch name ps, t ++ [⟨ch, name, ps⟩])

/-- `unity.send_command(name, ps)` — the `UnityConnection` channel. -/
def sendCmd (env : Env) (name : String) (ps : Mapping) : M Mapping :=
  sendOn env .unityConn name ps

/-- Run a tool body under the source's `try/except Exception` wrapper:
a raised exception is handed to the handler, nothing propagates. -/
def runCatch {α : Type} (x : M α) (h : String → α) : α :=
  match x [] with
  | (.ok a, _) => a
  | (.error e, _) => h e

/-- The transmissions a body performs (on a fresh trace). -/
def runTrace {α : Type} (x : M α) : List SentCmd :=
  (x []).2

/-- `v.get(k)` on a list element: raises when the element is not a dict
(Python `AttributeError`), else returns the value or `None`. -/
def jget (v : JsonValue) (k : String) : M JsonValue :=
  match v with
  | .obj fs => pure (mgetD fs k .null)
  | _ => throwM "AttributeError: 'value' object has no attribute 'get'"

/-- `any(x.get(k) == target for x in v)` over a JSON value: iterating a
non-list raises (Python `TypeError`; the corner cases of iterable strings
and dicts are folded into this raise), `any` short-circuits at the first
match, so malformed later elements are not touched. -/
def anyKeyEqStrGo : List JsonValue → String → String → M Bool
  | [], _, _ => pure false
  | x :: rest, k, target => do
      let pv ← jget x k
      if jeqStr pv target then pure true else anyKeyEqStrGo rest k target

/-- See `anyKeyEqStrGo`: dispatch on the iterated value. -/
def anyKeyEqStr (v : JsonValue) (k target : String) : M Bool :=
  match v with
  | .list l => anyKeyEqStrGo l k target
  | _ => throwM "TypeError: value is not iterable"

/-- A JSON value as a list, raising on a non-list (Python `TypeError` from
iterating / `AttributeError` from `list.insert`). -/
def asJList (v : JsonValue) : M (List JsonValue) :=
  match v with
  | .list l => pure l
  | _ => throwM "TypeError: value is not a list"

/-- Python `v > 0` on a JSON value: numeric for numbers, 0/1 for bools,
raises `TypeError` otherwise (Python 3 refuses ordering across types). -/
def jgtZero (v : JsonValue) : M Bool :=
  match v with
  | .num q => pure (decide (0 < q))
  | .bool b => pure b
  | _ => throwM "TypeError: unorderable types"

/-- `m[k]`: the value bound to `k`, raising `KeyError` when absent. -/
def jIndex (m : Mapping) (k : String) : M JsonValue :=
  match m.lookup k with
  | some v => pure v
  | none => throwM ("KeyError: '" ++ k ++ "'")

/-! ## src/Python/tools/scene_tools.py -/

namespace SceneTools

/-- Body of `get_scene_info` (scene_tools.py, inside the `try`). -/
def get_scene_info_body (env : Env) : M JsonValue := do
  getConnM env
  let result ← sendCmd env "GET_SCENE_INFO" []
  pure (.str (jsonDumps result))

def get_scene_info (env : Env) : JsonValue :=
  runCatch (get_scene_info_body env) (fun e => .str ("Error getting scene info: " ++ e))

/-- The `GET_ASSET_LIST` probe `open_scene`/`new_scene` send first. -/
def sceneProbeParams (scene_path : String) : Mapping :=
  [("type", .str "Scene"),
   ("search_pattern", .str (basename scene_path)),
   ("folder", .str (strOr (dirname scene_path) "Assets"))]

/-- Body of `open_scene`: checks the scene exists in the project via
`GET_ASSET_LIST`, then sends `OPEN_SCENE` and returns
`result.get("message", "Scene opened successfully")`. -/
def open_scene_body (env : Env) (scene_path : String) : M JsonValue := do
  getConnM env
  let resp ← sendCmd env "GET_ASSET_LIST" (sceneProbeParams scene_path)
  let scenes := mgetD resp "assets" (.list [])
  let scene_exists ← anyKeyEqStr scenes "path" scene_path
  if !scene_exists then
    pure (.str ("Scene at '" ++ scene_path ++ "' not found in the project."))
  else do
    let result ← sendCmd env "OPEN_SCENE" [("scene_path", .str scene_path)]
    pure (mgetD result "message" (.str "Scene opened successfully"))

def open_scene (env : Env) (scene_path : String) : JsonValue :=
  runCatch (open_scene_body env scene_path)
    (fun e => .str ("Error opening scene: " ++ e))

/-- Body of `save_scene`. -/
def save_scene_body (env : Env) : M JsonValue := do
  getConnM env
  let result ← sendCmd env "SAVE_SCENE" []
  pure (mgetD result "message" (.str "Scene saved successfully"))

def save_scene (env : Env) : JsonValue :=
  runCatch (save_scene_body env) (fun e => .str ("Error saving scene: " ++ e))

/-- Body of `new_scene`: existence probe, `NEW_SCENE`, then a `SAVE_SCENE`
and a `GET_SCENE_INFO` whose results are discarded. -/
def new_scene_body (env : Env) (scene_path : String) (overwrite : Bool) : M JsonValue := do
  getConnM env
  let resp ← sendCmd env "GET_ASSET_LIST" (sceneProbeParams scene_path)
  let scenes := mgetD resp "assets" (.list [])
  let scene_exists ← anyKeyEqStr scenes "path" scene_path
  if scene_exists && !overwrite then
    pure (.str ("Scene at '" ++ scene_path ++
      "' already exists. Use overwrite=True to replace it."))
  else do
    let result ← sendCmd env "NEW_SCENE"
      [("scene_path", .str scene_path), ("overwrite", .bool overwrite)]
    let _ ← sendCmd env "SAVE_SCENE" []
    let _ ← sendCmd env "GET_SCENE_INFO" []
    pure (mgetD result "message" (.str "New scene created successfully"))

def new_scene (env : Env) (scene_path : String) (overwrite : Bool) : JsonValue :=
  runCatch (new_scene_body env scene_path overwrite)
    (fun e => .str ("Error creating new scene: " ++ e))

/-- Body of `change_scene`. -/
def change_scene_body (env : Env) (scene_path : String) (save_current : Bool) : M JsonValue := do
  getConnM env
  let result ← sendCmd env "CHANGE_SCENE"
    [("scene_path", .str scene_path), ("save_current", .bool save_current)]
  pure (mgetD result "message" (.str "Scene changed successfully"))

def change_scene (env : Env) (scene_path : String) (save_current : Bool) : JsonValue :=
  runCatch (change_scene_body env scene_path save_current)
    (fun e => .str ("Error changing scene: " ++ e))

/-- Body of `get_object_info`. -/
def get_object_info_body (env : Env) (object_name : String) : M JsonValue := do
  getConnM env
  let result ← sendCmd env "GET_OBJECT_INFO" [("name", .str object_name)]
  pure (.str (jsonDumps result))

def get_object_info (env : Env) (object_name : String) : JsonValue :=
  runCatch (get_object_info_body env object_name)
    (fun e => .str ("Error getting object info: " ++ e))

/-- The params mapping `create_object` builds (insertion order of the
source; `name` is appended only when truthy). -/
def create_object_params (type : String) (name : Option String)
    (location rotation scale : Option (List ℚ)) : Mapping :=
  [("type", .str type.toUpper),
   ("location", numListJ (listOr location [0, 0, 0])),
   ("rotation", numListJ (listOr rotation [0, 0, 0])),
   ("scale", numListJ (listOr scale [1, 1, 1]))] ++
  (if optStrTruthy name then [("name", .str (name.getD ""))] else [])

/-- Body of `create_object`: optional existence check / replace, then
`CREATE_OBJECT`; `result['name']` raises `KeyError` when absent. -/
def create_object_body (env : Env) (type : String) (name : Option String)
    (location rotation scale : Option (List ℚ)) (replace_if_exists : Bool) : M JsonValue := do
  getConnM env
  let create : M JsonValue := do
    let result ← sendCmd env "CREATE_OBJECT"
      (create_object_params type name location rotation scale)
    let nm ← jIndex result "name"
    pure (.str ("Created " ++ type ++ " game object: " ++ pyStr nm))
  if optStrTruthy name then do
    let resp ← sendCmd env "FIND_OBJECTS_BY_NAME" [("name", .str (name.getD ""))]
    let found := mgetD resp "objects" (.list [])
    if pyTruthy found && !replace_if_exists then
      pure (.str ("Object with name '" ++ name.getD "" ++
        "' already exists. Use replace_if_exists=True to replace it."))
    else if pyTruthy found && replace_if_exists then do
      let _ ← sendCmd env "DELETE_OBJECT" [("name", .str (name.getD ""))]
      create
    else create
  else create

def create_object (env : Env) (type : String) (name : Option String)
    (location rotation scale : Option (List ℚ)) (replace_if_exists : Bool) : JsonValue :=
  runCatch (create_object_body env type name location rotation scale replace_if_exists)
    (fun e => .str ("Error creating game object: " ++ e))

/-- The params mapping `modify_object` builds: `name` always, then each
optional argument that `is not None`, in source order. -/
def modify_object_params (name : String) (location rotation scale : Option (List ℚ))
    (visible : Option Bool) (set_parent add_component remove_component : Option String)
    (set_property : Option Mapping) : Mapping :=
  [("name", .str name)] ++
  (match location with | some l => [("location", numListJ l)] | none => []) ++
  (match rotation with | some l => [("rotation", numListJ l)] | none => []) ++
  (match scale with | some l => [("scale", numListJ l)] | none => []) ++
  (match visible with | some b => [("visible", .bool b)] | none => []) ++
  (match set_parent with | some s => [("set_parent", .str s)] | none => []) ++
  (match add_component with | some s => [("add_component", .str s)] | none => []) ++
  (match remove_component with | some s => [("remove_component", .str s)] | none => []) ++
  (match set_property with | some m => [("set_property", .obj m)] | none => [])

/-- Body of `modify_object`: existence check, parent check, component
add/remove pre-checks, then `MODIFY_OBJECT`. -/
def modify_object_body (env : Env) (name : String) (location rotation scale : Option (List ℚ))
    (visible : Option Bool) (set_parent add_component remove_component : Option String)
    (set_property : Option Mapping) : M JsonValue := do
  getConnM env
  let resp ← sendCmd env "FIND_OBJECTS_BY_NAME" [("name", .str name)]
  let found := mgetD resp "objects" (.list [])
  if !pyTruthy found then
    pure (.str ("Object with name '" ++ name ++ "' not found in the scene."))
  else do
    let finish : M JsonValue := do
      let result ← sendCmd env "MODIFY_OBJECT"
        (modify_object_params name location rotation scale visible set_parent
          add_component remove_component set_property)
      let nm ← jIndex result "name"
      pure (.str ("Modified game object: " ++ pyStr nm))
    let checkRemove : M JsonValue :=
      match remove_component with
      | some rc => do
          let props ← sendCmd env "GET_OBJECT_PROPERTIES" [("name", .str name)]
          let comps := mgetD props "components" (.list [])
          let component_exists ← anyKeyEqStr comps "type" rc
          if !component_exists then
            pure (.str ("Component '" ++ rc ++ "' is not attached to '" ++ name ++ "'."))
          else finish
      | none => finish
    let checkAdd : M JsonValue :=
      match add_component with
      | some ac => do
          let props ← sendCmd env "GET_OBJECT_PROPERTIES" [("name", .str name)]
          let comps := mgetD props "components" (.list [])
          let component_exists ← anyKeyEqStr comps "type" ac
          if component_exists then
            pure (.str ("Component '" ++ ac ++ "' is already attached to '" ++ name ++ "'."))
          else checkRemove
      | none => checkRemove
    match set_parent with
    | some sp => do
        let presp ← sendCmd env "FIND_OBJECTS_BY_NAME" [("name", .str sp)]
        let pobjs := mgetD presp "objects" (.list [])
        if !pyTruthy pobjs then
          pure (.str ("Parent object '" ++ sp ++ "' not found in the scene."))
        else checkAdd
    | none => checkAdd

def modify_object (env : Env) (name : String) (location rotation scale : Option (List ℚ))
    (visible : Option Bool) (set_parent add_component remove_component : Option String)
    (set_property : Option Mapping) : JsonValue :=
  runCatch (modify_object_body env name location rotation scale visible set_parent
      add_component remove_component set_property)
    (fun e => .str ("Error modifying game object: " ++ e))

/-- Body of `delete_object`: existence check via `FIND_OBJECTS_BY_NAME`,
then `DELETE_OBJECT`. -/
def delete_object_body (env : Env) (name : String) (ignore_missing : Bool) : M JsonValue := do
  getConnM env
  let resp ← sendCmd env "FIND_OBJECTS_BY_NAME" [("name", .str name)]
  let found := mgetD resp "objects" (.list [])
  if !pyTruthy found then
    if ignore_missing then
      pure (.str ("No object named '" ++ name ++ "' found to delete. Ignoring."))
    else
      pure (.str ("Error: Object '" ++ name ++ "' not found in the scene."))
  else do
    let _ ← sendCmd env "DELETE_OBJECT" [("name", .str name)]
    pure (.str ("Deleted game object: " ++ name))

def delete_object (env : Env) (name : String) (ignore_missing : Bool) : JsonValue :=
  runCatch (delete_object_body env name ignore_missing)
    (fun e => .str ("Error deleting game object: " ++ e))

end SceneTools

/-! ## src/Python/tools/script_tools.py -/

/-- `needle.isPrefixOf hay` on char lists. -/
def isPrefB : List Char → List Char → Bool
  | [], _ => true
  | _ :: _, [] => false
  | a :: as, b :: bs => a == b && isPrefB as bs

/-- Whether `needle` occurs inside `hay` (Python `needle in hay` on strings). -/
def isInfixB : List Char → List Char → Bool
  | needle, [] => needle.isEmpty
  | needle, hay@(_ :: rest) => isPrefB needle hay || isInfixB needle rest

/-- Python `needle in hay` for strings. -/
def strContainsSub (hay needle : String) : Bool :=
  isInfixB needle.toList hay.toList

/-- `"sep".join(xs)` over a list of JSON values: every element must be a
string, otherwise Python raises `TypeError`. -/
def strListGo : List JsonValue → M (List String)
  | [] => pure []
  | .str s :: rest => do
      let r ← strListGo rest
      pure (s :: r)
  | _ :: _ => throwM "TypeError: sequence item: expected str instance"

/-- See `strListGo`: a JSON value as a list of strings, raising on a
non-list or a non-string element. -/
def strListM (v : JsonValue) : M (List String) :=
  match v with
  | .list l => strListGo l
  | _ => throwM "TypeError: can only join an iterable"

namespace ScriptTools

/-- Body of `view_script`: path normalisation, then `VIEW_SCRIPT`. -/
def view_script_body (env : Env) (script_path : String) (require_exists : Bool) : M JsonValue := do
  let sp := if script_path.startsWith "Assets/" then script_path else "Assets/" ++ script_path
  getConnM env
  let response ← sendCmd env "VIEW_SCRIPT"
    [("script_path", .str sp), ("require_exists", .bool require_exists)]
  if pyTruthy (mgetD response "exists" (.bool true)) then
    pure (mgetD response "content" (.str "Script contents not available"))
  else
    pure (mgetD response "message" (.str "Script not found"))

def view_script (env : Env) (script_path : String) (require_exists : Bool) : JsonValue :=
  runCatch (view_script_body env script_path require_exists)
    (fun e => .str ("Error viewing script: " ++ e))

/-- The params mapping `create_script` builds.  `namespace` and `template`
are sent even when `None`; `script_folder` and `content` are appended only
when truthy. -/
def create_script_params (script_name script_type : String) (nspace template : Option String)
    (overwrite : Bool) (script_folder content : Option String) : Mapping :=
  [("script_name", .str script_name),
   ("script_type", .str script_type),
   ("namespace", optJ nspace),
   ("template", optJ template),
   ("overwrite", .bool overwrite)] ++
  (if optStrTruthy script_folder then [("script_folder", .str (script_folder.getD ""))] else []) ++
  (if optStrTruthy content then [("content", .str (content.getD ""))] else [])

/-- Body of `create_script`: the computed `script_path` is only printed in
the source and is not part of the transmitted params. -/
def create_script_body (env : Env) (script_name script_type : String)
    (nspace template script_folder : Option String) (overwrite : Bool)
    (content : Option String) : M JsonValue := do
  getConnM env
  let _script_path :=
    if optStrTruthy script_folder then
      let nf := if (script_folder.getD "").startsWith "Assets/" then script_folder.getD ""
        else "Assets/" ++ script_folder.getD ""
      if nf.endsWith "/" then nf ++ script_name ++ ".cs" else nf ++ "/" ++ script_name ++ ".cs"
    else "Assets/Scripts/" ++ script_name ++ ".cs"
  let response ← sendCmd env "CREATE_SCRIPT"
    (create_script_params script_name script_type nspace template overwrite script_folder content)
  pure (mgetD response "message" (.str "Script created successfully"))

def create_script (env : Env) (script_name script_type : String)
    (nspace template script_folder : Option String) (overwrite : Bool)
    (content : Option String) : JsonValue :=
  runCatch (create_script_body env script_name script_type nspace template script_folder
      overwrite content)
    (fun e => .str ("Error creating script: " ++ e))

/-- Body of `update_script`: path normalisation (`Assets/` prefix, `.cs`
suffix added when the basename lacks it), then `UPDATE_SCRIPT` with or
without the creation flags. -/
def update_script_body (env : Env) (script_path content : String)
    (create_if_missing create_folder_if_missing : Bool) : M JsonValue := do
  getConnM env
  let sp0 := if script_path.startsWith "Assets/" then script_path else "Assets/" ++ script_path
  let sname := basename sp0
  let sp := if sname.endsWith ".cs" then sp0 else sp0 ++ ".cs"
  if create_if_missing then do
    let params := [("script_path", .str sp), ("content", .str content),
      ("create_if_missing", .bool true)] ++
      (if create_folder_if_missing then [("create_folder_if_missing", .bool true)] else [])
    let response ← sendCmd env "UPDATE_SCRIPT" params
    pure (mgetD response "message" (.str "Script updated successfully"))
  else do
    let response ← sendCmd env "UPDATE_SCRIPT"
      [("script_path", .str sp), ("content", .str content)]
    pure (mgetD response "message" (.str "Script updated successfully"))

def update_script (env : Env) (script_path content : String)
    (create_if_missing create_folder_if_missing : Bool) : JsonValue :=
  runCatch (update_script_body env script_path content create_if_missing
      create_folder_if_missing)
    (fun e => .str ("Error updating script: " ++ e))

/-- Body of `list_scripts`. -/
def list_scripts_body (env : Env) (folder_path : String) : M JsonValue := do
  getConnM env
  let response ← sendCmd env "LIST_SCRIPTS" [("folder_path", .str folder_path)]
  let scripts := mgetD response "scripts" (.list [])
  if !pyTruthy scripts then
    pure (.str "No scripts found in the specified folder")
  else do
    let ss ← strListM scripts
    pure (.str (String.intercalate "\n" ss))

def list_scripts (env : Env) (folder_path : String) : JsonValue :=
  runCatch (list_scripts_body env folder_path)
    (fun e => .str ("Error listing scripts: " ++ e))

/-- Body of `attach_script`: object existence check, name/path
normalisation, already-attached check, then `ATTACH_SCRIPT`. -/
def attach_script_body (env : Env) (object_name script_name : String)
    (script_path : Option String) : M JsonValue := do
  getConnM env
  let oresp ← sendCmd env "FIND_OBJECTS_BY_NAME" [("name", .str object_name)]
  let objects := mgetD oresp "objects" (.list [])
  if !pyTruthy objects then
    pure (.str ("GameObject '" ++ object_name ++ "' not found in the scene."))
  else do
    let sname := if !(script_name.toLower.endsWith ".cs") then script_name ++ ".cs"
      else script_name
    let sbase := basename sname
    let spath : Option String :=
      match script_path with
      | some sp0 =>
          let sp1 := if sp0.startsWith "Assets/" then sp0 else "Assets/" ++ sp0
          some (if sp1.endsWith sbase then sp1
            else if sp1.endsWith "/" then sp1 ++ sbase else sp1 ++ "/" ++ sbase)
      | none => none
    let props ← sendCmd env "GET_OBJECT_PROPERTIES" [("name", .str object_name)]
    let className := sbase.replace ".cs" ""
    let comps := mgetD props "components" (.list [])
    let attached ← anyKeyEqStr comps "type" className
    if attached then
      pure (.str ("Script '" ++ className ++ "' is already attached to '" ++
        object_name ++ "'."))
    else do
      let params := [("object_name", .str object_name), ("script_name", .str sbase)] ++
        (if optStrTruthy spath then [("script_path", .str (spath.getD ""))] else [])
      let response ← sendCmd env "ATTACH_SCRIPT" params
      pure (mgetD response "message" (.str "Script attached successfully"))

def attach_script (env : Env) (object_name script_name : String)
    (script_path : Option String) : JsonValue :=
  runCatch (attach_script_body env object_name script_name script_path)
    (fun e => .str ("Error attaching script: " ++ e))

end ScriptTools

/-! ## src/Python/tools/material_tools.py -/

namespace MaterialTools

/-- Python `"RGBA"[i]` with the source's `if i < 4` guard. -/
def rgbaChannel (i : Nat) : String :=
  if i < 4 then String.singleton ("RGBA".toList.getD i 'R') else "component " ++ toString i

/-- The colour-validation loop of `set_material`: first offending component
decides the message.  A `bool` passes `isinstance(value, (int, float))`
(Python `bool` is a subclass of `int`) and `True`/`False` lie inside
`[0.0, 1.0]`. -/
def colorCheck : List JsonValue → Nat → Option String
  | [], _ => none
  | .num q :: rest, i =>
      if q < 0 ∨ q > 1 then
        some ("Error: Color " ++ rgbaChannel i ++
          " value must be in the range 0.0-1.0, but got " ++ numToStr q ++ ".")
      else colorCheck rest (i + 1)
  | .bool _ :: rest, i => colorCheck rest (i + 1)
  | _ :: _, i => some ("Error: Color component at index " ++ toString i ++ " is not a number.")

/-- Truthiness of the optional `color` argument (`None` and `[]` falsy). -/
def colorTruthy : Option (List JsonValue) → Bool
  | some l => !l.isEmpty
  | none => false

/-- The params mapping `set_material` transmits. -/
def set_material_params (object_name : String) (material_name : Option String)
    (color : Option (List JsonValue)) (create_if_missing : Bool) : Mapping :=
  [("object_name", .str object_name), ("create_if_missing", .bool create_if_missing)] ++
  (if optStrTruthy material_name then [("material_name", .str (material_name.getD ""))] else []) ++
  (if colorTruthy color then [("color", .list (color.getD []))] else [])

/-- Body of `set_material`: object check, optional material-asset check,
colour validation (only when `color` is truthy — an empty list skips it),
then `SET_MATERIAL`. -/
def set_material_body (env : Env) (object_name : String) (material_name : Option String)
    (color : Option (List JsonValue)) (create_if_missing : Bool) : M JsonValue := do
  getConnM env
  let oresp ← sendCmd env "FIND_OBJECTS_BY_NAME" [("name", .str object_name)]
  let objects := mgetD oresp "objects" (.list [])
  if !pyTruthy objects then
    pure (.str ("GameObject '" ++ object_name ++ "' not found in the scene."))
  else do
    let afterMaterial : M JsonValue := do
      let colorL := color.getD []
      let proceed : M JsonValue := do
        let result ← sendCmd env "SET_MATERIAL"
          (set_material_params object_name material_name color create_if_missing)
        let mname := mgetD result "material_name" (.str "unknown")
        let mpath := mgetD result "path" .null
        if pyTruthy mpath then
          pure (.str ("Applied shared material '" ++ pyStr mname ++ "' to " ++
            object_name ++ " (saved at " ++ pyStr mpath ++ ")"))
        else
          pure (.str ("Applied instance material '" ++ pyStr mname ++ "' to " ++ object_name))
      if colorTruthy color then
        if !(colorL.length = 3 ∨ colorL.length = 4 : Bool) then
          pure (.str ("Error: Color must have 3 (RGB) or 4 (RGBA) components, but got " ++
            toString colorL.length ++ "."))
        else
          match colorCheck colorL 0 with
          | some msg => pure (.str msg)
          | none => proceed
      else proceed
    if optStrTruthy material_name then do
      let aresp ← sendCmd env "GET_ASSET_LIST"
        [("type", .str "Material"), ("search_pattern", .str (material_name.getD "")),
         ("folder", .str "Assets/Materials")]
      let assets := mgetD aresp "assets" (.list [])
      let material_exists ← anyKeyEqStr assets "name" (material_name.getD "")
      if !material_exists && !create_if_missing then
        pure (.str ("Material '" ++ material_name.getD "" ++
          "' not found. Use create_if_missing=True to create it."))
      else afterMaterial
    else afterMaterial

def set_material (env : Env) (object_name : String) (material_name : Option String)
    (color : Option (List JsonValue)) (create_if_missing : Bool) : JsonValue :=
  runCatch (set_material_body env object_name material_name color create_if_missing)
    (fun e => .str ("Error setting material: " ++ e))

end MaterialTools

/-! ## src/Python/tools/editor_tools.py -/

/-- Python `s in xs` over a JSON value: membership by `==` on a list
(`jeqStr` never raises), `TypeError` on a non-list. -/
def strInJList (v : JsonValue) (s : String) : M Bool :=
  match v with
  | .list l => pure (l.any (fun x => jeqStr x s))
  | _ => throwM "TypeError: argument is not iterable"

/-- The comprehension `[cmd for cmd in cmds if name.lower() in cmd.lower()]`:
a non-string element raises `AttributeError` at `.lower()`. -/
def similarGo : List JsonValue → String → M (List String)
  | [], _ => pure []
  | .str c :: rest, q => do
      let r ← similarGo rest q
      pure (if strContainsSub c.toLower q.toLower then c :: r else r)
  | _ :: _, _ => throwM "AttributeError: 'value' object has no attribute 'lower'"

/-- See `similarGo`: dispatch on the iterated value. -/
def similarList (v : JsonValue) (q : String) : M (List String) :=
  match v with
  | .list l => similarGo l q
  | _ => throwM "TypeError: argument is not iterable"

namespace EditorTools

/-- The suggestion suffix `execute_command` builds from similar commands. -/
def suggestionMsg (sims : List String) : String :=
  if sims.isEmpty then ""
  else
    " Did you mean one of these: " ++ String.intercalate ", " (sims.take 5) ++
    (if sims.length > 5 then " or others?" else "?")

/-- Body of `undo`. -/
def undo_body (env : Env) : M JsonValue := do
  getConnM env
  let response ← sendCmd env "EDITOR_CONTROL" [("command", .str "UNDO")]
  pure (mgetD response "message" (.str "Undo performed successfully"))

def undo (env : Env) : JsonValue :=
  runCatch (undo_body env) (fun e => .str ("Error performing undo: " ++ e))

/-- Body of `redo`. -/
def redo_body (env : Env) : M JsonValue := do
  getConnM env
  let response ← sendCmd env "EDITOR_CONTROL" [("command", .str "REDO")]
  pure (mgetD response "message" (.str "Redo performed successfully"))

def redo (env : Env) : JsonValue :=
  runCatch (redo_body env) (fun e => .str ("Error performing redo: " ++ e))

/-- Body of `play`. -/
def play_body (env : Env) : M JsonValue := do
  getConnM env
  let response ← sendCmd env "EDITOR_CONTROL" [("command", .str "PLAY")]
  pure (mgetD response "message" (.str "Entered play mode"))

def play (env : Env) : JsonValue :=
  runCatch (play_body env) (fun e => .str ("Error entering play mode: " ++ e))

/-- Body of `pause`. -/
def pause_body (env : Env) : M JsonValue := do
  getConnM env
  let response ← sendCmd env "EDITOR_CONTROL" [("command", .str "PAUSE")]
  pure (mgetD response "message" (.str "Game paused"))

def pause (env : Env) : JsonValue :=
  runCatch (pause_body env) (fun e => .str ("Error pausing game: " ++ e))

/-- Body of `stop`. -/
def stop_body (env : Env) : M JsonValue := do
  getConnM env
  let response ← sendCmd env "EDITOR_CONTROL" [("command", .str "STOP")]
  pure (mgetD response "message" (.str "Exited play mode"))

def stop (env : Env) : JsonValue :=
  runCatch (stop_body env) (fun e => .str ("Error stopping game: " ++ e))

/-- The valid build platforms of `build`, in source order. -/
def validPlatforms : List String :=
  ["windows", "mac", "linux", "android", "ios", "webgl"]

/-- Body of `build`: platform validation, filesystem probes of the build
directory/path, then `EDITOR_CONTROL`/`BUILD`. -/
def build_body (env : Env) (platform build_path : String) : M JsonValue := do
  getConnM env
  if !validPlatforms.contains platform.toLower then
    pure (.str ("Error: '" ++ platform ++
      "' is not a valid platform. Valid platforms are: windows, mac, linux, android, ios, webgl"))
  else do
    let doBuild : M JsonValue := do
      let response ← sendCmd env "EDITOR_CONTROL"
        [("command", .str "BUILD"),
         ("params", .obj [("platform", .str platform), ("buildPath", .str build_path)])]
      pure (mgetD response "message" (.str "Build completed successfully"))
    let build_dir := dirname build_path
    if !env.pathExists build_dir then
      pure (.str ("Error: Build directory '" ++ build_dir ++
        "' does not exist. Please create it first."))
    else if !env.writable build_dir then
      pure (.str ("Error: Build directory '" ++ build_dir ++ "' is not writable."))
    else if env.pathExists build_path then
      if env.isFile build_path then
        if !env.writable build_path then
          pure (.str ("Error: Existing build file '" ++ build_path ++ "' is not writable."))
        else doBuild
      else if env.isDir build_path then
        if !env.writable build_path then
          pure (.str ("Error: Existing build directory '" ++ build_path ++ "' is not writable."))
        else doBuild
      else doBuild
    else doBuild

def build (env : Env) (platform build_path : String) : JsonValue :=
  runCatch (build_body env platform build_path)
    (fun e => .str ("Error building project: " ++ e))

/-- Body of `execute_command`: optional validation against
`GET_AVAILABLE_COMMANDS` with a similar-commands suggestion, then
`EDITOR_CONTROL`/`EXECUTE_COMMAND`. -/
def execute_command_body (env : Env) (command_name : String) (validate_command : Bool) :
    M JsonValue := do
  getConnM env
  let proceed : M JsonValue := do
    let response ← sendCmd env "EDITOR_CONTROL"
      [("command", .str "EXECUTE_COMMAND"),
       ("params", .obj [("commandName", .str command_name)])]
    pure (mgetD response "message" (.str ("Executed command: " ++ command_name)))
  if validate_command then do
    let cresp ← sendCmd env "EDITOR_CONTROL" [("command", .str "GET_AVAILABLE_COMMANDS")]
    let available := mgetD cresp "commands" (.list [])
    if pyTruthy available then do
      let inL ← strInJList available command_name
      if !inL then do
        let sims ← similarList available command_name
        pure (.str ("Error: Command '" ++ command_name ++ "' not found." ++ suggestionMsg sims))
      else proceed
    else proceed
  else proceed

def execute_command (env : Env) (command_name : String) (validate_command : Bool) : JsonValue :=
  runCatch (execute_command_body env command_name validate_command)
    (fun e => .str ("Error executing command: " ++ e))

/-- The `params` nested mapping the legacy `read_console` builds
(`search_term` only when provided). -/
def read_console_params (show_logs show_warnings show_errors : Bool)
    (search_term : Option String) : Mapping :=
  [("show_logs", .bool show_logs), ("show_warnings", .bool show_warnings),
   ("show_errors", .bool show_errors)] ++
  (match search_term with | some s => [("search_term", .str s)] | none => [])

/-- A one-entry console list: the substituted informational or error entry. -/
def consoleEntry (ty msg trace : String) : JsonValue :=
  .obj [("type", .str ty), ("message", .str msg), ("stackTrace", .str trace)]

/-- The summary lines the legacy `read_console` builds (always at least
one line: either the totals block or "No entries in console"). -/
def consoleSummary (totalPos : Bool) (total filtered filter_applied : JsonValue)
    (search_term : Option String) (show_logs show_warnings show_errors : Bool) : List String :=
  (if totalPos then
    ["Total console entries: " ++ pyStr total] ++
    (if pyTruthy filter_applied then
      ["Filtered entries: " ++ pyStr filtered] ++
      (if jeqNum filtered 0 then
        ["No entries matched the search term: '" ++ pyStr (optJ search_term) ++ "'"] else [])
    else ["Showing all entries"])
  else ["No entries in console"]) ++
  (let filter_types := (if show_logs then ["logs"] else []) ++
    (if show_warnings then ["warnings"] else []) ++ (if show_errors then ["errors"] else [])
   if !filter_types.isEmpty then
     ["Showing: " ++ String.intercalate ", " filter_types] else [])

/-- Body of the legacy `read_console`: an `error` key in the response, a
summary entry prepended to the entries, and a substituted entry when the
result would be empty. -/
def read_console_body (env : Env) (show_logs show_warnings show_errors : Bool)
    (search_term : Option String) : M JsonValue := do
  getConnM env
  let response ← sendCmd env "EDITOR_CONTROL"
    [("command", .str "READ_CONSOLE"),
     ("params", .obj (read_console_params show_logs show_warnings show_errors search_term))]
  if hasKey response "error" then
    pure (.list [.obj [("type", .str "Error"),
      ("message", .str ("Failed to read console: " ++ pyStr (mgetD response "error" .null))),
      ("stackTrace", mgetD response "stackTrace" (.str ""))]])
  else do
    let entriesV := mgetD response "entries" (.list [])
    let total := mgetD response "total_entries" (.num 0)
    let filtered := mgetD response "filtered_count" (.num 0)
    let filter_applied := mgetD response "filter_applied" (.bool false)
    let totalPos ← jgtZero total
    let summary := consoleSummary totalPos total filtered filter_applied search_term
      show_logs show_warnings show_errors
    let entriesL ← asJList entriesV
    let entries2 := if !summary.isEmpty then
      consoleEntry "Info" (String.intercalate " | " summary) "" :: entriesL else entriesL
    if !entries2.isEmpty then pure (.list entries2)
    else pure (.list [consoleEntry "Info" "No logs found in console" ""])

def read_console (env : Env) (show_logs show_warnings show_errors : Bool)
    (search_term : Option String) : JsonValue :=
  runCatch (read_console_body env show_logs show_warnings show_errors search_term)
    (fun e => .list [consoleEntry "Error" ("Error reading console: " ++ e) ""])

/-- Body of `get_available_commands`. -/
def get_available_commands_body (env : Env) : M JsonValue := do
  getConnM env
  let response ← sendCmd env "EDITOR_CONTROL" [("command", .str "GET_AVAILABLE_COMMANDS")]
  pure (mgetD response "commands" (.list []))

def get_available_commands (env : Env) : JsonValue :=
  runCatch (get_available_commands_body env)
    (fun e => .list [.str ("Error fetching commands: " ++ e)])

end EditorTools

/-! ## src/Python/tools/asset_tools.py -/

namespace AssetTools

/-- Body of `import_asset`: argument and filesystem validation, existence
probe via `GET_ASSET_LIST`, then `IMPORT_ASSET`.  The `isinstance` checks
are subsumed by the typed arguments; `not source_path` is the empty
string. -/
def import_asset_body (env : Env) (source_path target_path : String) (overwrite : Bool) :
    M JsonValue := do
  getConnM env
  if source_path == "" then
    pure (.str "Error importing asset: source_path must be a valid string")
  else if target_path == "" then
    pure (.str "Error importing asset: target_path must be a valid string")
  else if !env.pathExists source_path then
    pure (.str ("Error importing asset: Source file '" ++ source_path ++ "' does not exist"))
  else do
    let target_dir := dirname target_path
    let target_filename := basename target_path
    let eresp ← sendCmd env "GET_ASSET_LIST"
      [("search_pattern", .str target_filename), ("folder", .str (strOr target_dir "Assets"))]
    let assets := mgetD eresp "assets" (.list [])
    let asset_exists ← anyKeyEqStr assets "path" target_path
    if asset_exists && !overwrite then
      pure (.str ("Asset already exists at '" ++ target_path ++
        "'. Use overwrite=True to replace it."))
    else do
      let response ← sendCmd env "IMPORT_ASSET"
        [("source_path", .str source_path), ("target_path", .str target_path),
         ("overwrite", .bool overwrite)]
      if !pyTruthy (mgetD response "success" (.bool false)) then
        pure (.str ("Error importing asset: " ++ pyStr (mgetD response "error"
          (.str "Unknown error")) ++ " (Source: " ++ source_path ++ ", Target: " ++
          target_path ++ ")"))
      else
        pure (mgetD response "message" (.str "Asset imported successfully"))

def import_asset (env : Env) (source_path target_path : String) (overwrite : Bool) : JsonValue :=
  runCatch (import_asset_body env source_path target_path overwrite)
    (fun e => .str ("Error importing asset: " ++ e ++ " (Source: " ++ source_path ++
      ", Target: " ++ target_path ++ ")"))

/-- First entry of the positional-params dict whose value fails
`isinstance(v, (int, float))` (a `bool` passes: it is an `int` in Python). -/
def firstNonNum : List (String × JsonValue) → Option String
  | [] => none
  | (_, .num _) :: rest => firstNonNum rest
  | (_, .bool _) :: rest => firstNonNum rest
  | (n, _) :: _ => some n

/-- The value the local `prefab_path` of `instantiate_prefab` has after the
try block's rebinding (a `.prefab` suffix is appended when the basename
lacks it). -/
def instantiatePrefabPath (prefab_path : String) : String :=
  if !(basename prefab_path).toLower.endsWith ".prefab" then prefab_path ++ ".prefab"
  else prefab_path

/-- Body of `instantiate_prefab` after `get_unity_connection` succeeded:
every raise point inside it comes after the source rebinds `prefab_path`,
so the except clause of the tool renders the rebound value. -/
def instantiate_prefab_body (env : Env) (prefab_path : String)
    (px py pz rx ry rz : JsonValue) : M JsonValue := do
  if prefab_path == "" then
    pure (.str "Error instantiating prefab: prefab_path must be a valid string")
  else
    match firstNonNum [("position_x", px), ("position_y", py), ("position_z", pz),
        ("rotation_x", rx), ("rotation_y", ry), ("rotation_z", rz)] with
    | some pn => pure (.str ("Error instantiating prefab: " ++ pn ++ " must be a number"))
    | none => do
        let prefab_dir := strOr (dirname prefab_path) "Assets"
        let pname := basename prefab_path
        let pname2 := if !pname.toLower.endsWith ".prefab" then pname ++ ".prefab" else pname
        let ppath2 := instantiatePrefabPath prefab_path
        let presp ← sendCmd env "GET_ASSET_LIST"
          [("type", .str "Prefab"), ("search_pattern", .str pname2),
           ("folder", .str prefab_dir)]
        let assets := mgetD presp "assets" (.list [])
        let prefab_exists ← anyKeyEqStr assets "path" ppath2
        if !prefab_exists then
          pure (.str ("Prefab '" ++ ppath2 ++ "' not found in the project."))
        else do
          let response ← sendCmd env "INSTANTIATE_PREFAB"
            [("prefab_path", .str ppath2), ("position_x", px), ("position_y", py),
             ("position_z", pz), ("rotation_x", rx), ("rotation_y", ry), ("rotation_z", rz)]
          if !pyTruthy (mgetD response "success" (.bool false)) then
            pure (.str ("Error instantiating prefab: " ++ pyStr (mgetD response "error"
              (.str "Unknown error")) ++ " (Path: " ++ ppath2 ++ ")"))
          else
            pure (.str ("Prefab instantiated successfully as '" ++
              pyStr (mgetD response "instance_name" (.str "unknown")) ++ "'"))

/-- The value the local `prefab_path` has when an exception escapes the
try block of `instantiate_prefab`: a raise at `get_unity_connection`
happens before the rebinding, every later raise point comes after it (the
except clause interpolates the current local). -/
def instantiate_prefab_exc_path (env : Env) (prefab_path : String) : String :=
  match env.getConn with
  | .error _ => prefab_path
  | .ok _ => instantiatePrefabPath prefab_path

def instantiate_prefab (env : Env) (prefab_path : String) (px py pz rx ry rz : JsonValue) :
    JsonValue :=
  runCatch (do getConnM env; instantiate_prefab_body env prefab_path px py pz rx ry rz)
    (fun e => .str ("Error instantiating prefab: " ++ e ++ " (Path: " ++
      instantiate_prefab_exc_path env prefab_path ++ ")"))

/-- The value the local `prefab_path` of `create_prefab` has after the
rebinding that follows the object-existence check. -/
def createPrefabPath (prefab_path : String) : String :=
  if !prefab_path.toLower.endsWith ".prefab" then prefab_path ++ ".prefab" else prefab_path

/-- Body of `create_prefab` after the object-existence check, with the
rebound `prefab_path`. -/
def create_prefab_late (env : Env) (object_name pp2 : String) (overwrite : Bool) :
    M JsonValue := do
  let prefab_dir := strOr (dirname pp2) "Assets"
  let pname := basename pp2
  let presp ← sendCmd env "GET_ASSET_LIST"
    [("type", .str "Prefab"), ("search_pattern", .str pname), ("folder", .str prefab_dir)]
  let assets := mgetD presp "assets" (.list [])
  let prefab_exists ← anyKeyEqStr assets "path" pp2
  if prefab_exists && !overwrite then
    pure (.str ("Prefab already exists at '" ++ pp2 ++ "'. Use overwrite=True to replace it."))
  else do
    let response ← sendCmd env "CREATE_PREFAB"
      [("object_name", .str object_name), ("prefab_path", .str pp2),
       ("overwrite", .bool overwrite)]
    if !pyTruthy (mgetD response "success" (.bool false)) then
      pure (.str ("Error creating prefab: " ++ pyStr (mgetD response "error"
        (.str "Unknown error")) ++ " (Object: " ++ object_name ++ ", Path: " ++ pp2 ++ ")"))
    else
      pure (.str ("Prefab created successfully at " ++
        pyStr (mgetD response "path" (.str pp2))))

/-- Body of `create_prefab` (the whole try block): argument validation,
object-existence check, rebinding of `prefab_path`, then the tail. -/
def create_prefab_body (env : Env) (object_name prefab_path : String) (overwrite : Bool) :
    M JsonValue := do
  getConnM env
  if object_name == "" then
    pure (.str "Error creating prefab: object_name must be a valid string")
  else if prefab_path == "" then
    pure (.str "Error creating prefab: prefab_path must be a valid string")
  else do
    let fresp ← sendCmd env "FIND_OBJECTS_BY_NAME" [("name", .str object_name)]
    if !pyTruthy (mgetD fresp "objects" (.list [])) then
      pure (.str ("GameObject '" ++ object_name ++ "' not found in the scene."))
    else
      create_prefab_late env object_name (createPrefabPath prefab_path) overwrite

/-- The value the local `prefab_path` has when an exception escapes the
try block of `create_prefab`: the rebinding happens only after the
`FIND_OBJECTS_BY_NAME` check succeeded, so the two earlier raise points
render the argument value. -/
def create_prefab_exc_path (env : Env) (object_name prefab_path : String) : String :=
  match env.getConn with
  | .error _ => prefab_path
  | .ok _ =>
      match env.send "FIND_OBJECTS_BY_NAME" [("name", .str object_name)] with
      | .error _ => prefab_path
      | .ok fresp =>
          if !pyTruthy (mgetD fresp "objects" (.list [])) then prefab_path
          else createPrefabPath prefab_path

def create_prefab (env : Env) (object_name prefab_path : String) (overwrite : Bool) :
    JsonValue :=
  runCatch (create_prefab_body env object_name prefab_path overwrite)
    (fun e => .str ("Error creating prefab: " ++ e ++ " (Object: " ++ object_name ++
      ", Path: " ++ create_prefab_exc_path env object_name prefab_path ++ ")"))

/-- Body of `apply_prefab`: existence check, prefab-instance check via
`GET_OBJECT_PROPERTIES`, then `APPLY_PREFAB`. -/
def apply_prefab_body (env : Env) (object_name : String) : M JsonValue := do
  getConnM env
  let fresp ← sendCmd env "FIND_OBJECTS_BY_NAME" [("name", .str object_name)]
  let found := mgetD fresp "objects" (.list [])
  if !pyTruthy found then
    pure (.str ("GameObject '" ++ object_name ++ "' not found in the scene."))
  else do
    let props ← sendCmd env "GET_OBJECT_PROPERTIES" [("name", .str object_name)]
    if !pyTruthy (mgetD props "isPrefabInstance" (.bool false)) then
      pure (.str ("GameObject '" ++ object_name ++ "' is not a prefab instance."))
    else do
      let response ← sendCmd env "APPLY_PREFAB" [("object_name", .str object_name)]
      pure (mgetD response "message" (.str "Prefab changes applied successfully"))

def apply_prefab (env : Env) (object_name : String) : JsonValue :=
  runCatch (apply_prefab_body env object_name)
    (fun e => .str ("Error applying prefab changes: " ++ e))

end AssetTools

/-! ## src/Python/tools/object_tools.py -/

namespace ObjectTools

/-- Body of `get_object_properties`. -/
def get_object_properties_body (env : Env) (name : String) : M JsonValue := do
  getConnM env
  let response ← sendCmd env "GET_OBJECT_PROPERTIES" [("name", .str name)]
  pure (.obj response)

def get_object_properties (env : Env) (name : String) : JsonValue :=
  runCatch (get_object_properties_body env name)
    (fun e => .obj [("error", .str ("Failed to get object properties: " ++ e))])

/-- Body of `get_component_properties`. -/
def get_component_properties_body (env : Env) (object_name component_type : String) :
    M JsonValue := do
  getConnM env
  let response ← sendCmd env "GET_COMPONENT_PROPERTIES"
    [("object_name", .str object_name), ("component_type", .str component_type)]
  pure (.obj response)

def get_component_properties (env : Env) (object_name component_type : String) : JsonValue :=
  runCatch (get_component_properties_body env object_name component_type)
    (fun e => .obj [("error", .str ("Failed to get component properties: " ++ e))])

/-- Body of `find_objects_by_name`. -/
def find_objects_by_name_body (env : Env) (name : String) : M JsonValue := do
  getConnM env
  let response ← sendCmd env "FIND_OBJECTS_BY_NAME" [("name", .str name)]
  pure (mgetD response "objects" (.list []))

def find_objects_by_name (env : Env) (name : String) : JsonValue :=
  runCatch (find_objects_by_name_body env name)
    (fun e => .list [.obj [("error", .str ("Failed to find objects: " ++ e))]])

/-- Body of `find_objects_by_tag`. -/
def find_objects_by_tag_body (env : Env) (tag : String) : M JsonValue := do
  getConnM env
  let response ← sendCmd env "FIND_OBJECTS_BY_TAG" [("tag", .str tag)]
  pure (mgetD response "objects" (.list []))

def find_objects_by_tag (env : Env) (tag : String) : JsonValue :=
  runCatch (find_objects_by_tag_body env tag)
    (fun e => .list [.obj [("error", .str ("Failed to find objects: " ++ e))]])

/-- Body of object_tools' own `get_scene_info` (registered after the
scene_tools tool of the same name). -/
def get_scene_info_body (env : Env) : M JsonValue := do
  getConnM env
  let response ← sendCmd env "GET_SCENE_INFO" []
  pure (.obj response)

def get_scene_info (env : Env) : JsonValue :=
  runCatch (get_scene_info_body env)
    (fun e => .obj [("error", .str ("Failed to get scene info: " ++ e))])

/-- Body of `get_hierarchy`. -/
def get_hierarchy_body (env : Env) : M JsonValue := do
  getConnM env
  let response ← sendCmd env "GET_HIERARCHY" []
  pure (.obj response)

def get_hierarchy (env : Env) : JsonValue :=
  runCatch (get_hierarchy_body env)
    (fun e => .obj [("error", .str ("Failed to get hierarchy: " ++ e))])

/-- Body of `select_object`. -/
def select_object_body (env : Env) (name : String) : M JsonValue := do
  getConnM env
  let response ← sendCmd env "SELECT_OBJECT" [("name", .str name)]
  pure (.obj response)

def select_object (env : Env) (name : String) : JsonValue :=
  runCatch (select_object_body env name)
    (fun e => .obj [("error", .str ("Failed to select object: " ++ e))])

/-- Body of `get_selected_object`: `response.get("selected")` defaults
to `None`. -/
def get_selected_object_body (env : Env) : M JsonValue := do
  getConnM env
  let response ← sendCmd env "GET_SELECTED_OBJECT" []
  pure (mgetD response "selected" .null)

def get_selected_object (env : Env) : JsonValue :=
  runCatch (get_selected_object_body env)
    (fun e => .obj [("error", .str ("Failed to get selected object: " ++ e))])

/-- The params mapping `get_asset_list` builds: the optional `type` is
transmitted even when `None` — this tool does not filter null values. -/
def get_asset_list_params (type : Option String) (search_pattern folder : String) : Mapping :=
  [("type", optJ type), ("search_pattern", .str search_pattern), ("folder", .str folder)]

/-- Body of `get_asset_list`. -/
def get_asset_list_body (env : Env) (type : Option String) (search_pattern folder : String) :
    M JsonValue := do
  getConnM env
  let response ← sendCmd env "GET_ASSET_LIST" (get_asset_list_params type search_pattern folder)
  pure (mgetD response "assets" (.list []))

def get_asset_list (env : Env) (type : Option String) (search_pattern folder : String) :
    JsonValue :=
  runCatch (get_asset_list_body env type search_pattern folder)
    (fun e => .list [.obj [("error", .str ("Failed to get asset list: " ++ e))]])

/-- Body of `execute_context_menu_item`: existence check, property fetch
with an `error`-key check, component check, then the command itself. -/
def execute_context_menu_item_body (env : Env)
    (object_name component context_menu_item : String) : M JsonValue := do
  getConnM env
  let fresp ← sendCmd env "FIND_OBJECTS_BY_NAME" [("name", .str object_name)]
  let found := mgetD fresp "objects" (.list [])
  if !pyTruthy found then
    pure (.obj [("error", .str ("Object with name '" ++ object_name ++
      "' not found in the scene."))])
  else do
    let props ← sendCmd env "GET_OBJECT_PROPERTIES" [("name", .str object_name)]
    if hasKey props "error" then
      pure (.obj [("error", .str ("Failed to get object properties: " ++
        pyStr (mgetD props "error" .null)))])
    else do
      let comps := mgetD props "components" (.list [])
      let component_exists ← anyKeyEqStr comps "type" component
      if !component_exists then
        pure (.obj [("error", .str ("Component '" ++ component ++
          "' is not attached to object '" ++ object_name ++ "'."))])
      else do
        let response ← sendCmd env "EXECUTE_CONTEXT_MENU_ITEM"
          [("object_name", .str object_name), ("component", .str component),
           ("context_menu_item", .str context_menu_item)]
        pure (.obj response)

def execute_context_menu_item (env : Env) (object_name component context_menu_item : String) :
    JsonValue :=
  runCatch (execute_context_menu_item_body env object_name component context_menu_item)
    (fun e => .obj [("error", .str ("Failed to execute context menu item: " ++ e))])

end ObjectTools

/-! ## The newer tool family: read_console.py, manage_asset.py,
execute_menu_item.py, manage_scene.py, manage_editor.py,
manage_gameobject.py, manage_script.py.

None of these registrars is invoked by `tools/__init__.py`'s
`register_all_tools`, which registers only the six legacy modules. -/

/-- Whether a JSON value is Python `None`. -/
def isNull : JsonValue → Bool
  | .null => true
  | _ => false

/-- The dict comprehension `{k: v for k, v in m.items() if v is not None}`. -/
def filterNulls (m : Mapping) : Mapping :=
  m.filter (fun kv => !isNull kv.2)

/-- An optional list of rationals as a JSON value. -/
def optNumListJ : Option (List ℚ) → JsonValue
  | some l => numListJ l
  | none => .null

/-- An optional list of JSON values as a JSON value. -/
def optListJ : Option (List JsonValue) → JsonValue
  | some l => .list l
  | none => .null

/-- An optional mapping as a JSON value. -/
def optObjJ : Option Mapping → JsonValue
  | some m => .obj m
  | none => .null

namespace NewTools

/-- The params mapping the new `read_console` transmits: `None`-valued keys
are dropped *except* `count`, which is kept (and re-added, a dead branch in
the source since the filter never removes it) so an explicit null reaches
the C# handler. -/
def read_console_params (action : Option String) (types : Option (List JsonValue))
    (count : Option Int) (filter_text since_timestamp : Option String)
    (format : Option String) (include_stacktrace : Option Bool) : Mapping :=
  let act := if optStrTruthy action then (action.getD "").toLower else "get"
  let typesList : List JsonValue :=
    match types with
    | some l => if l.isEmpty then [.str "error", .str "warning", .str "log"] else l
    | none => [.str "error", .str "warning", .str "log"]
  let fmt := if optStrTruthy format then (format.getD "").toLower else "detailed"
  let raw : Mapping :=
    [("action", .str act), ("types", .list typesList), ("count", optIntJ count),
     ("filterText", optJ filter_text), ("sinceTimestamp", optJ since_timestamp),
     ("format", .str fmt), ("includeStacktrace", optBoolJ include_stacktrace)]
  let filtered := raw.filter (fun kv => !isNull kv.2 || kv.1 == "count")
  if hasKey filtered "count" then filtered else filtered ++ [("count", .null)]

/-- The new `read_console` dispatches through
`ctx.bridge.unity_editor.HandleReadConsole` — not through
`UnityConnection.send_command` — and has no `try/except`: a raised
exception propagates out of the tool. -/
def read_console_run (env : Env) (action : Option String) (types : Option (List JsonValue))
    (count : Option Int) (filter_text since_timestamp : Option String)
    (format : Option String) (include_stacktrace : Option Bool) :
    Except String Mapping × List SentCmd :=
  sendOn env .ctxBridge "HandleReadConsole"
    (read_console_params action types count filter_text since_timestamp format
      include_stacktrace) []

/-- The params mapping `manage_asset` transmits: `None` properties become
`{}`, then every `None`-valued key is dropped. -/
def manage_asset_params (action path : String) (asset_type : Option String)
    (properties : Option Mapping) (destination : Option String)
    (generate_preview : Option Bool) (search_pattern filter_type filter_date_after : Option String)
    (page_size page_number : Option Int) : Mapping :=
  let props := match properties with | some m => m | none => []
  filterNulls
    [("action", .str action.toLower), ("path", .str path), ("assetType", optJ asset_type),
     ("properties", .obj props), ("destination", optJ destination),
     ("generatePreview", optBoolJ generate_preview), ("searchPattern", optJ search_pattern),
     ("filterType", optJ filter_type), ("filterDateAfter", optJ filter_date_after),
     ("pageSize", optIntJ page_size), ("pageNumber", optIntJ page_number)]

/-- `manage_asset` dispatches through `ctx.send_command` and has no
`try/except`: a raised exception propagates out of the tool. -/
def manage_asset_run (env : Env) (action path : String) (asset_type : Option String)
    (properties : Option Mapping) (destination : Option String)
    (generate_preview : Option Bool) (search_pattern filter_type filter_date_after : Option String)
    (page_size page_number : Option Int) : Except String Mapping × List SentCmd :=
  sendOn env .ctxSend "manage_asset"
    (manage_asset_params action path asset_type properties destination generate_preview
      search_pattern filter_type filter_date_after page_size page_number) []

/-- The params mapping `execute_menu_item` transmits (`parameters` is
defaulted to `{}`, the `None` filter and the re-add are dead code on it). -/
def execute_menu_item_params (menu_path : String) (action : Option String)
    (parameters : Option Mapping) : Mapping :=
  let act := if optStrTruthy action then (action.getD "").toLower else "execute"
  let raw : Mapping :=
    [("action", .str act), ("menuPath", .str menu_path),
     ("parameters", .obj (parameters.getD []))]
  let filtered := filterNulls raw
  if hasKey filtered "parameters" then filtered else filtered ++ [("parameters", .obj [])]

/-- `execute_menu_item` dispatches through `ctx.call` aimed at the C#
handler target, and has no `try/except`. -/
def execute_menu_item_run (env : Env) (menu_path : String) (action : Option String)
    (parameters : Option Mapping) : Except String Mapping × List SentCmd :=
  sendOn env .ctxCall "UnityMCP.Editor.Tools.ExecuteMenuItem.HandleCommand"
    (execute_menu_item_params menu_path action parameters) []

/-- The params mapping `manage_scene` builds, with `None` values removed. -/
def manage_scene_params (action : String) (name path : Option String)
    (build_index : Option Int) : Mapping :=
  filterNulls
    [("action", .str action), ("name", optJ name), ("path", optJ path),
     ("buildIndex", optIntJ build_index)]

/-- Body of `manage_scene` (inside its `try`): sends the lower-snake-case
command name through `UnityConnection.send_command`. -/
def manage_scene_body (env : Env) (action : String) (name path : Option String)
    (build_index : Option Int) : M JsonValue := do
  getConnM env
  let response ← sendCmd env "manage_scene" (manage_scene_params action name path build_index)
  if pyTruthy (mgetD response "success" .null) then
    pure (.obj [("success", .bool true),
      ("message", mgetD response "message" (.str "Scene operation successful.")),
      ("data", mgetD response "data" .null)])
  else
    pure (.obj [("success", .bool false),
      ("message", mgetD response "error"
        (.str "An unknown error occurred during scene management."))])

def manage_scene (env : Env) (action : String) (name path : Option String)
    (build_index : Option Int) : JsonValue :=
  runCatch (manage_scene_body env action name path build_index)
    (fun e => .obj [("success", .bool false),
      ("message", .str ("Python error managing scene: " ++ e))])

/-- The params mapping `manage_editor` builds, with `None` values removed. -/
def manage_editor_params (action : String) (wait_for_completion : Option Bool)
    (tool_name tag_name layer_name : Option String) : Mapping :=
  filterNulls
    [("action", .str action), ("waitForCompletion", optBoolJ wait_for_completion),
     ("toolName", optJ tool_name), ("tagName", optJ tag_name),
     ("layerName", optJ layer_name)]

/-- Body of `manage_editor`. -/
def manage_editor_body (env : Env) (action : String) (wait_for_completion : Option Bool)
    (tool_name tag_name layer_name : Option String) : M JsonValue := do
  getConnM env
  let response ← sendCmd env "manage_editor"
    (manage_editor_params action wait_for_completion tool_name tag_name layer_name)
  if pyTruthy (mgetD response "success" .null) then
    pure (.obj [("success", .bool true),
      ("message", mgetD response "message" (.str "Editor operation successful.")),
      ("data", mgetD response "data" .null)])
  else
    pure (.obj [("success", .bool false),
      ("message", mgetD response "error"
        (.str "An unknown error occurred during editor management."))])

def manage_editor (env : Env) (action : String) (wait_for_completion : Option Bool)
    (tool_name tag_name layer_name : Option String) : JsonValue :=
  runCatch (manage_editor_body env action wait_for_completion tool_name tag_name layer_name)
    (fun e => .obj [("success", .bool false),
      ("message", .str ("Python error managing editor: " ++ e))])

/-- The params mapping `manage_script` builds, with `None` values removed. -/
def manage_script_params (action name : String) (path contents script_type nspace :
    Option String) : Mapping :=
  filterNulls
    [("action", .str action), ("name", .str name), ("path", optJ path),
     ("contents", optJ contents), ("scriptType", optJ script_type),
     ("namespace", optJ nspace)]

/-- Body of `manage_script`. -/
def manage_script_body (env : Env) (action name : String)
    (path contents script_type nspace : Option String) : M JsonValue := do
  getConnM env
  let response ← sendCmd env "manage_script"
    (manage_script_params action name path contents script_type nspace)
  if pyTruthy (mgetD response "success" .null) then
    pure (.obj [("success", .bool true),
      ("message", mgetD response "message" (.str "Operation successful.")),
      ("data", mgetD response "data" .null)])
  else
    pure (.obj [("success", .bool false),
      ("message", mgetD response "error" (.str "An unknown error occurred."))])

def manage_script (env : Env) (action name : String)
    (path contents script_type nspace : Option String) : JsonValue :=
  runCatch (manage_script_body env action name path contents script_type nspace)
    (fun e => .obj [("success", .bool false),
      ("message", .str ("Python error managing script: " ++ e))])

/-- The params mapping `manage_gameobject` builds before its prefab-path
handling, with `None` values removed. -/
def manage_gameobject_params (action : String) (target : Option JsonValue)
    (search_method name tag : Option String) (parent : Option JsonValue)
    (position rotation scale : Option (List ℚ)) (components_to_add : Option (List JsonValue))
    (primitive_type : Option String) (save_as_prefab : Option Bool)
    (prefab_path prefab_folder new_name : Option String) (new_parent : Option JsonValue)
    (set_active : Option Bool) (new_tag : Option String) (new_layer : Option JsonValue)
    (components_to_remove : Option (List JsonValue)) (component_properties : Option Mapping)
    (search_term : Option String) (find_all search_in_children search_inactive : Option Bool)
    (component_name : Option String) : Mapping :=
  filterNulls
    [("action", .str action), ("target", target.getD .null),
     ("searchMethod", optJ search_method), ("name", optJ name), ("tag", optJ tag),
     ("parent", parent.getD .null), ("position", optNumListJ position),
     ("rotation", optNumListJ rotation), ("scale", optNumListJ scale),
     ("componentsToAdd", optListJ components_to_add), ("primitiveType", optJ primitive_type),
     ("saveAsPrefab", optBoolJ save_as_prefab), ("prefabPath", optJ prefab_path),
     ("prefabFolder", optJ prefab_folder), ("newName", optJ new_name),
     ("newParent", new_parent.getD .null), ("setActive", optBoolJ set_active),
     ("newTag", optJ new_tag), ("newLayer", new_layer.getD .null),
     ("componentsToRemove", optListJ components_to_remove),
     ("componentProperties", optObjJ component_properties), ("searchTerm", optJ search_term),
     ("findAll", optBoolJ find_all), ("searchInChildren", optBoolJ search_in_children),
     ("searchInactive", optBoolJ search_inactive), ("componentName", optJ component_name)]

/-- The tail of `manage_gameobject` once the transmitted params are final:
the dead `pop("prefab_folder")` (the key in the mapping is `prefabFolder`),
the send, and the response shaping. -/
def manage_gameobject_send (env : Env) (ps : Mapping) : M JsonValue := do
  let ps2 := ps.filter (fun kv => !(kv.1 == "prefab_folder"))
  getConnM env
  let response ← sendCmd env "manage_gameobject" ps2
  if pyTruthy (mgetD response "success" .null) then
    pure (.obj [("success", .bool true),
      ("message", mgetD response "message" (.str "GameObject operation successful.")),
      ("data", mgetD response "data" .null)])
  else
    pure (.obj [("success", .bool false),
      ("message", mgetD response "error"
        (.str "An unknown error occurred during GameObject management."))])

/-- Body of `manage_gameobject`: prefab-path construction/validation for
`create` with `saveAsPrefab`, then the send. -/
def manage_gameobject_body (env : Env) (action : String) (prefab_folder : Option String)
    (ps : Mapping) : M JsonValue := do
  if action == "create" && pyTruthy (mgetD ps "saveAsPrefab" .null) then
    if !hasKey ps "prefabPath" then
      if !hasKey ps "name" || !pyTruthy (mgetD ps "name" .null) then
        pure (.obj [("success", .bool false),
          ("message", .str "Cannot create default prefab path: 'name' parameter is missing.")])
      else
        let constructed := pyStr (optJ prefab_folder) ++ "/" ++
          pyStr (mgetD ps "name" .null) ++ ".prefab"
        manage_gameobject_send env (ps ++ [("prefabPath", .str (constructed.replace "\\" "/"))])
    else
      match mgetD ps "prefabPath" .null with
      | .str s =>
          if !s.toLower.endsWith ".prefab" then
            pure (.obj [("success", .bool false),
              ("message", .str ("Invalid prefab_path: '" ++ s ++ "' must end with .prefab"))])
          else manage_gameobject_send env ps
      | _ => throwM "AttributeError: 'value' object has no attribute 'lower'"
  else manage_gameobject_send env ps

def manage_gameobject (env : Env) (action : String) (target : Option JsonValue)
    (search_method name tag : Option String) (parent : Option JsonValue)
    (position rotation scale : Option (List ℚ)) (components_to_add : Option (List JsonValue))
    (primitive_type : Option String) (save_as_prefab : Option Bool)
    (prefab_path prefab_folder new_name : Option String) (new_parent : Option JsonValue)
    (set_active : Option Bool) (new_tag : Option String) (new_layer : Option JsonValue)
    (components_to_remove : Option (List JsonValue)) (component_properties : Option Mapping)
    (search_term : Option String) (find_all search_in_children search_inactive : Option Bool)
    (component_name : Option String) : JsonValue :=
  runCatch (manage_gameobject_body env action prefab_folder
      (manage_gameobject_params action target search_method name tag parent position rotation
        scale components_to_add primitive_type save_as_prefab prefab_path prefab_folder
        new_name new_parent set_active new_tag new_layer components_to_remove
        component_properties search_term find_all search_in_children search_inactive
        component_name))
    (fun e => .obj [("success", .bool false),
      ("message", .str ("Python error managing GameObject: " ++ e))])

end NewTools

/-! ## The connection core, modelled from the specification.

`unity_connection.py` (class `UnityConnection` with `send_command`, and
`get_unity_connection`) is imported by every tool module but is not among
the staged sources; the definitions below follow §4.1/§4.2 of the
specification. -/

namespace ConnModel

/-- The configuration the core consumes (§6): only the fields the retry
policy reads are modelled. -/
structure ConnCfg where
  max_retries : Nat
  retry_delay : ℚ

/-- Outcome of one receive: a parsed response envelope, a mid-stream
reset, a timeout, or bytes that do not parse. -/
inductive RecvRes where
  | ok (m : Mapping) : RecvRes
  | reset : RecvRes
  | timeout : RecvRes
  | malformed : RecvRes

/-- The network as an oracle: the outcome of the i-th socket-open attempt,
of the i-th framed write, and of the i-th receive of the call. -/
structure NetWorld where
  connectOk : Nat → Bool
  sendOk : Nat → Bool
  recv : Nat → RecvRes

/-- Observable actions of one `send_command` call. -/
inductive NetEv where
  | connAttempt (i : Nat) (ok : Bool) : NetEv
  | sleep (d : ℚ) : NetEv
  | writeAttempt (i : Nat) (ok : Bool) : NetEv
  | readAttempt (i : Nat) : NetEv

/-- The error taxonomy of §7 as raised failures (`RemoteError` is returned
as data, not raised, and so does not appear here). -/
inductive SendErr where
  | connectionError : SendErr
  | timeoutError : SendErr
  | protocolError : SendErr
  deriving Repr, DecidableEq

/-- Modelled from the spec: §4.2 — `encode` drops keys whose value is
absent (`None`), except keys a command's contract marks preserve-null;
no command transmitted through `send_command` in the staged tools marks
any, so the generic drop applies. -/
def specEncode (params : Mapping) : Mapping :=
  filterNulls params

/-- Modelled from the spec: §4.1 step 2 — the request envelope
`{type: command_type, params: params_with_nulls_removed}`; the command
name is an opaque string, passed unchanged. -/
def requestEnvelope (type : String) (params : Mapping) : String × Mapping :=
  (type, specEncode params)

/-- Modelled from the spec: §4.1 step 1 — up to `k` socket-open attempts
starting at global attempt index `i`, with a fixed `retry_delay` sleep
between consecutive attempts (not exponential).  Returns (connected,
next attempt index, events). -/
def connectGo (w : NetWorld) (d : ℚ) (i : Nat) : Nat → Bool × Nat × List NetEv
  | 0 => (false, i, [])
  | k + 1 =>
    if w.connectOk i then (true, i + 1, [.connAttempt i true])
    else if k = 0 then (false, i + 1, [.connAttempt i false])
    else
      let r := connectGo w d (i + 1) k
      (r.1, r.2.1, .connAttempt i false :: .sleep d :: r.2.2)

/-- Outcome of one write/read cycle: a response, a hard failure, or a
transient failure (write failure / mid-stream reset) that triggers the
single reconnect-and-retry. -/
inductive AttemptOut where
  | success (m : Mapping) : AttemptOut
  | hard (e : SendErr) : AttemptOut
  | transient : AttemptOut

/-- Result of one attempt of the §4.1 algorithm, steps 1–5. -/
structure AttRes where
  out : AttemptOut
  connected : Bool
  cIdx : Nat
  events : List NetEv
  requests : List (String × Mapping)

/-- Modelled from the spec: §4.1 steps 1–5 for a single attempt `attIdx`:
connect when not connected (raising `ConnectionError` after exhausting the
retries), serialize the envelope, write it, then read; a write failure or a
mid-stream reset marks the connection disconnected and reports a transient
failure; a timeout raises `TimeoutError`; unparseable bytes raise
`ProtocolError`. -/
def oneAttempt (cfg : ConnCfg) (w : NetWorld) (connected : Bool) (cIdx attIdx : Nat)
    (type : String) (params : Mapping) : AttRes :=
  let write : Nat → List NetEv → AttRes := fun c evs =>
    let req := requestEnvelope type params
    if !w.sendOk attIdx then
      ⟨.transient, false, c, evs ++ [.writeAttempt attIdx false], [req]⟩
    else
      match w.recv attIdx with
      | .ok m => ⟨.success m, true, c,
          evs ++ [.writeAttempt attIdx true, .readAttempt attIdx], [req]⟩
      | .reset => ⟨.transient, false, c,
          evs ++ [.writeAttempt attIdx true, .readAttempt attIdx], [req]⟩
      | .timeout => ⟨.hard .timeoutError, true, c,
          evs ++ [.writeAttempt attIdx true, .readAttempt attIdx], [req]⟩
      | .malformed => ⟨.hard .protocolError, true, c,
          evs ++ [.writeAttempt attIdx true, .readAttempt attIdx], [req]⟩
  if connected then write cIdx []
  else
    let r := connectGo w cfg.retry_delay cIdx cfg.max_retries
    if !r.1 then ⟨.hard .connectionError, false, r.2.1, r.2.2, []⟩
    else write r.2.1 r.2.2

/-- Result of a `send_command` call: the returned or raised outcome, the
final `connected` flag, the events, and the request envelopes written. -/
structure SCRes where
  result : Except SendErr Mapping
  connected : Bool
  events : List NetEv
  requests : List (String × Mapping)

/-- Modelled from the spec: §4.1 — `send_command` runs one attempt; a
transient send/receive failure triggers exactly one reconnect-and-retry
cycle (the retry re-enters step 1 disconnected); if the single retry also
fails transiently, `ConnectionError` propagates. -/
def sendCommandModel (cfg : ConnCfg) (w : NetWorld) (connected : Bool) (type : String)
    (params : Mapping) : SCRes :=
  let a1 := oneAttempt cfg w connected 0 0 type params
  match a1.out with
  | .success m => ⟨.ok m, a1.connected, a1.events, a1.requests⟩
  | .hard e => ⟨.error e, a1.connected, a1.events, a1.requests⟩
  | .transient =>
      let a2 := oneAttempt cfg w false a1.cIdx 1 type params
      match a2.out with
      | .success m => ⟨.ok m, a2.connected, a1.events ++ a2.events, a1.requests ++ a2.requests⟩
      | .hard e => ⟨.error e, a2.connected, a1.events ++ a2.events, a1.requests ++ a2.requests⟩
      | .transient => ⟨.error .connectionError, false, a1.events ++ a2.events,
          a1.requests ++ a2.requests⟩

/-- Number of socket-open attempts among the events. -/
def countConn (evs : List NetEv) : Nat :=
  (evs.filter (fun e => match e with | .connAttempt _ _ => true | _ => false)).length

/-- Number of framed-write attempts among the events. -/
def countWrites (evs : List NetEv) : Nat :=
  (evs.filter (fun e => match e with | .writeAttempt _ _ => true | _ => false)).length

/-- The sleep delays among the events, in order. -/
def sleepDelays (evs : List NetEv) : List ℚ :=
  evs.filterMap (fun e => match e with | .sleep d => some d | _ => none)

end ConnModel

/-! ## The tool registry.

`server.py` calls `register_all_tools(mcp)`; `tools/__init__.py` registers
exactly the six legacy modules (scene, script, material, editor, asset,
object).  The enumeration below lists the 38 `@mcp.tool()` functions those
six registrars define, in registration order. -/

/-- The registered tools. -/
inductive RegTool where
  | sceneGetSceneInfo | openScene | saveScene | newScene | changeScene
  | getObjectInfo | createObject | modifyObject | deleteObject
  | viewScript | createScript | updateScript | listScripts | attachScript
  | setMaterial
  | undo | redo | play | pause | stop | build | executeCommand
  | readConsole | getAvailableCommands
  | importAsset | instantiatePrefab | createPrefab | applyPrefab
  | getObjectProperties | getComponentProperties | findObjectsByName
  | findObjectsByTag | objGetSceneInfo | getHierarchy | selectObject
  | getSelectedObject | getAssetList | executeContextMenuItem
  deriving Repr, DecidableEq

/-- Every tool `register_all_tools` reaches, in registration order
(scene_tools, script_tools, material_tools, editor_tools, asset_tools,
object_tools). -/
def registeredTools : List RegTool :=
  [.sceneGetSceneInfo, .openScene, .saveScene, .newScene, .changeScene,
   .getObjectInfo, .createObject, .modifyObject, .deleteObject,
   .viewScript, .createScript, .updateScript, .listScripts, .attachScript,
   .setMaterial,
   .undo, .redo, .play, .pause, .stop, .build, .executeCommand,
   .readConsole, .getAvailableCommands,
   .importAsset, .instantiatePrefab, .createPrefab, .applyPrefab,
   .getObjectProperties, .getComponentProperties, .findObjectsByName,
   .findObjectsByTag, .objGetSceneInfo, .getHierarchy, .selectObject,
   .getSelectedObject, .getAssetList, .executeContextMenuItem]

/-- One record holding an argument slot for every parameter the 38
registered tools take; defaults mirror the Python signatures where one
exists (for the uniform statements the arguments are quantified, so the
defaults only serve concrete instantiations). -/
structure ToolArgs where
  scene_path : String := ""
  save_current : Bool := false
  overwrite : Bool := false
  object_name : String := ""
  name : String := ""
  create_name : Option String := none
  type : String := "CUBE"
  location : Option (List ℚ) := none
  rotation : Option (List ℚ) := none
  scale : Option (List ℚ) := none
  replace_if_exists : Bool := false
  visible : Option Bool := none
  set_parent : Option String := none
  add_component : Option String := none
  remove_component : Option String := none
  set_property : Option Mapping := none
  ignore_missing : Bool := false
  require_exists : Bool := true
  script_path : String := ""
  attach_path : Option String := none
  script_name : String := ""
  script_type : String := "MonoBehaviour"
  nspace : Option String := none
  template : Option String := none
  script_folder : Option String := none
  create_content : Option String := none
  content : String := ""
  create_if_missing : Bool := false
  create_folder_if_missing : Bool := false
  folder_path : String := "Assets"
  material_name : Option String := none
  color : Option (List JsonValue) := none
  material_create_if_missing : Bool := true
  platform : String := ""
  build_path : String := ""
  command_name : String := ""
  validate_command : Bool := true
  show_logs : Bool := true
  show_warnings : Bool := true
  show_errors : Bool := true
  search_term : Option String := none
  source_path : String := ""
  target_path : String := ""
  prefab_path : String := ""
  position_x : JsonValue := .num 0
  position_y : JsonValue := .num 0
  position_z : JsonValue := .num 0
  rotation_x : JsonValue := .num 0
  rotation_y : JsonValue := .num 0
  rotation_z : JsonValue := .num 0
  component_type : String := ""
  tag : String := ""
  asset_type : Option String := none
  search_pattern : String := "*"
  folder : String := "Assets"
  component : String := ""
  context_menu_item : String := ""

/-- The try-block body of each registered tool, on the uniform argument
record. -/
def toolBody : RegTool → Env → ToolArgs → M JsonValue
  | .sceneGetSceneInfo, env, _ => SceneTools.get_scene_info_body env
  | .openScene, env, a => SceneTools.open_scene_body env a.scene_path
  | .saveScene, env, _ => SceneTools.save_scene_body env
  | .newScene, env, a => SceneTools.new_scene_body env a.scene_path a.overwrite
  | .changeScene, env, a => SceneTools.change_scene_body env a.scene_path a.save_current
  | .getObjectInfo, env, a => SceneTools.get_object_info_body env a.object_name
  | .createObject, env, a => SceneTools.create_object_body env a.type a.create_name
      a.location a.rotation a.scale a.replace_if_exists
  | .modifyObject, env, a => SceneTools.modify_object_body env a.name a.location a.rotation
      a.scale a.visible a.set_parent a.add_component a.remove_component a.set_property
  | .deleteObject, env, a => SceneTools.delete_object_body env a.name a.ignore_missing
  | .viewScript, env, a => ScriptTools.view_script_body env a.script_path a.require_exists
  | .createScript, env, a => ScriptTools.create_script_body env a.script_name a.script_type
      a.nspace a.template a.script_folder a.overwrite a.create_content
  | .updateScript, env, a => ScriptTools.update_script_body env a.script_path a.content
      a.create_if_missing a.create_folder_if_missing
  | .listScripts, env, a => ScriptTools.list_scripts_body env a.folder_path
  | .attachScript, env, a => ScriptTools.attach_script_body env a.object_name a.script_name
      a.attach_path
  | .setMaterial, env, a => MaterialTools.set_material_body env a.object_name a.material_name
      a.color a.material_create_if_missing
  | .undo, env, _ => EditorTools.undo_body env
  | .redo, env, _ => EditorTools.redo_body env
  | .play, env, _ => EditorTools.play_body env
  | .pause, env, _ => EditorTools.pause_body env
  | .stop, env, _ => EditorTools.stop_body env
  | .build, env, a => EditorTools.build_body env a.platform a.build_path
  | .executeCommand, env, a => EditorTools.execute_command_body env a.command_name
      a.validate_command
  | .readConsole, env, a => EditorTools.read_console_body env a.show_logs a.show_warnings
      a.show_errors a.search_term
  | .getAvailableCommands, env, _ => EditorTools.get_available_commands_body env
  | .importAsset, env, a => AssetTools.import_asset_body env a.source_path a.target_path
      a.overwrite
  | .instantiatePrefab, env, a => do
      getConnM env
      AssetTools.instantiate_prefab_body env a.prefab_path a.position_x a.position_y
        a.position_z a.rotation_x a.rotation_y a.rotation_z
  | .createPrefab, env, a => AssetTools.create_prefab_body env a.object_name a.prefab_path
      a.overwrite
  | .applyPrefab, env, a => AssetTools.apply_prefab_body env a.object_name
  | .getObjectProperties, env, a => ObjectTools.get_object_properties_body env a.name
  | .getComponentProperties, env, a => ObjectTools.get_component_properties_body env
      a.object_name a.component_type
  | .findObjectsByName, env, a => ObjectTools.find_objects_by_name_body env a.name
  | .findObjectsByTag, env, a => ObjectTools.find_objects_by_tag_body env a.tag
  | .objGetSceneInfo, env, _ => ObjectTools.get_scene_info_body env
  | .getHierarchy, env, _ => ObjectTools.get_hierarchy_body env
  | .selectObject, env, a => ObjectTools.select_object_body env a.name
  | .getSelectedObject, env, _ => ObjectTools.get_selected_object_body env
  | .getAssetList, env, a => ObjectTools.get_asset_list_body env a.asset_type
      a.search_pattern a.folder
  | .executeContextMenuItem, env, a => ObjectTools.execute_context_menu_item_body env
      a.object_name a.component a.context_menu_item

/-- The value each registered tool's except clause builds from `str(e)`
(for the two prefab tools it renders the current value of the rebound
local, which depends on how far the try block got — hence the `env`). -/
def toolHandler : RegTool → Env → ToolArgs → String → JsonValue
  | .sceneGetSceneInfo, _, _, e => .str ("Error getting scene info: " ++ e)
  | .openScene, _, _, e => .str ("Error opening scene: " ++ e)
  | .saveScene, _, _, e => .str ("Error saving scene: " ++ e)
  | .newScene, _, _, e => .str ("Error creating new scene: " ++ e)
  | .changeScene, _, _, e => .str ("Error changing scene: " ++ e)
  | .getObjectInfo, _, _, e => .str ("Error getting object info: " ++ e)
  | .createObject, _, _, e => .str ("Error creating game object: " ++ e)
  | .modifyObject, _, _, e => .str ("Error modifying game object: " ++ e)
  | .deleteObject, _, _, e => .str ("Error deleting game object: " ++ e)
  | .viewScript, _, _, e => .str ("Error viewing script: " ++ e)
  | .createScript, _, _, e => .str ("Error creating script: " ++ e)
  | .updateScript, _, _, e => .str ("Error updating script: " ++ e)
  | .listScripts, _, _, e => .str ("Error listing scripts: " ++ e)
  | .attachScript, _, _, e => .str ("Error attaching script: " ++ e)
  | .setMaterial, _, _, e => .str ("Error setting material: " ++ e)
  | .undo, _, _, e => .str ("Error performing undo: " ++ e)
  | .redo, _, _, e => .str ("Error performing redo: " ++ e)
  | .play, _, _, e => .str ("Error entering play mode: " ++ e)
  | .pause, _, _, e => .str ("Error pausing game: " ++ e)
  | .stop, _, _, e => .str ("Error stopping game: " ++ e)
  | .build, _, _, e => .str ("Error building project: " ++ e)
  | .executeCommand, _, _, e => .str ("Error executing command: " ++ e)
  | .readConsole, _, _, e =>
      .list [EditorTools.consoleEntry "Error" ("Error reading console: " ++ e) ""]
  | .getAvailableCommands, _, _, e => .list [.str ("Error fetching commands: " ++ e)]
  | .importAsset, _, a, e => .str ("Error importing asset: " ++ e ++ " (Source: " ++
      a.source_path ++ ", Target: " ++ a.target_path ++ ")")
  | .instantiatePrefab, env, a, e => .str ("Error instantiating prefab: " ++ e ++
      " (Path: " ++ AssetTools.instantiate_prefab_exc_path env a.prefab_path ++ ")")
  | .createPrefab, env, a, e => .str ("Error creating prefab: " ++ e ++ " (Object: " ++
      a.object_name ++ ", Path: " ++
      AssetTools.create_prefab_exc_path env a.object_name a.prefab_path ++ ")")
  | .applyPrefab, _, _, e => .str ("Error applying prefab changes: " ++ e)
  | .getObjectProperties, _, _, e =>
      .obj [("error", .str ("Failed to get object properties: " ++ e))]
  | .getComponentProperties, _, _, e =>
      .obj [("error", .str ("Failed to get component properties: " ++ e))]
  | .findObjectsByName, _, _, e =>
      .list [.obj [("error", .str ("Failed to find objects: " ++ e))]]
  | .findObjectsByTag, _, _, e =>
      .list [.obj [("error", .str ("Failed to find objects: " ++ e))]]
  | .objGetSceneInfo, _, _, e => .obj [("error", .str ("Failed to get scene info: " ++ e))]
  | .getHierarchy, _, _, e => .obj [("error", .str ("Failed to get hierarchy: " ++ e))]
  | .selectObject, _, _, e => .obj [("error", .str ("Failed to select object: " ++ e))]
  | .getSelectedObject, _, _, e =>
      .obj [("error", .str ("Failed to get selected object: " ++ e))]
  | .getAssetList, _, _, e =>
      .list [.obj [("error", .str ("Failed to get asset list: " ++ e))]]
  | .executeContextMenuItem, _, _, e =>
      .obj [("error", .str ("Failed to execute context menu item: " ++ e))]

/-- Run a registered tool, dispatching to the per-module definition. -/
def toolRun : RegTool → Env → ToolArgs → JsonValue
  | .sceneGetSceneInfo, env, _ => SceneTools.get_scene_info env
  | .openScene, env, a => SceneTools.open_scene env a.scene_path
  | .saveScene, env, _ => SceneTools.save_scene env
  | .newScene, env, a => SceneTools.new_scene env a.scene_path a.overwrite
  | .changeScene, env, a => SceneTools.change_scene env a.scene_path a.save_current
  | .getObjectInfo, env, a => SceneTools.get_object_info env a.object_name
  | .createObject, env, a => SceneTools.create_object env a.type a.create_name a.location
      a.rotation a.scale a.replace_if_exists
  | .modifyObject, env, a => SceneTools.modify_object env a.name a.location a.rotation
      a.scale a.visible a.set_parent a.add_component a.remove_component a.set_property
  | .deleteObject, env, a => SceneTools.delete_object env a.name a.ignore_missing
  | .viewScript, env, a => ScriptTools.view_script env a.script_path a.require_exists
  | .createScript, env, a => ScriptTools.create_script env a.script_name a.script_type
      a.nspace a.template a.script_folder a.overwrite a.create_content
  | .updateScript, env, a => ScriptTools.update_script env a.script_path a.content
      a.create_if_missing a.create_folder_if_missing
  | .listScripts, env, a => ScriptTools.list_scripts env a.folder_path
  | .attachScript, env, a => ScriptTools.attach_script env a.object_name a.script_name
      a.attach_path
  | .setMaterial, env, a => MaterialTools.set_material env a.object_name a.material_name
      a.color a.material_create_if_missing
  | .undo, env, _ => EditorTools.undo env
  | .redo, env, _ => EditorTools.redo env
  | .play, env, _ => EditorTools.play env
  | .pause, env, _ => EditorTools.pause env
  | .stop, env, _ => EditorTools.stop env
  | .build, env, a => EditorTools.build env a.platform a.build_path
  | .executeCommand, env, a => EditorTools.execute_command env a.command_name
      a.validate_command
  | .readConsole, env, a => EditorTools.read_console env a.show_logs a.show_warnings
      a.show_errors a.search_term
  | .getAvailableCommands, env, _ => EditorTools.get_available_commands env
  | .importAsset, env, a => AssetTools.import_asset env a.source_path a.target_path
      a.overwrite
  | .instantiatePrefab, env, a => AssetTools.instantiate_prefab env a.prefab_path
      a.position_x a.position_y a.position_z a.rotation_x a.rotation_y a.rotation_z
  | .createPrefab, env, a => AssetTools.create_prefab env a.object_name a.prefab_path
      a.overwrite
  | .applyPrefab, env, a => AssetTools.apply_prefab env a.object_name
  | .getObjectProperties, env, a => ObjectTools.get_object_properties env a.name
  | .getComponentProperties, env, a => ObjectTools.get_component_properties env
      a.object_name a.component_type
  | .findObjectsByName, env, a => ObjectTools.find_objects_by_name env a.name
  | .findObjectsByTag, env, a => ObjectTools.find_objects_by_tag env a.tag
  | .objGetSceneInfo, env, _ => ObjectTools.get_scene_info env
  | .getHierarchy, env, _ => ObjectTools.get_hierarchy env
  | .selectObject, env, a => ObjectTools.select_object env a.name
  | .getSelectedObject, env, _ => ObjectTools.get_selected_object env
  | .getAssetList, env, a => ObjectTools.get_asset_list env a.asset_type a.search_pattern
      a.folder
  | .executeContextMenuItem, env, a => ObjectTools.execute_context_menu_item env
      a.object_name a.component a.context_menu_item

/-- `p` is a prefix of `s`, on the character lists. -/
def strStartsWith (s p : String) : Bool :=
  p.data.isPrefixOf s.data

/-- The shapes the registered tools' except clauses produce: an error
string (they all start with "Error"), a mapping with an `error` key or
with `type: "Error"`, or a one-element list of such a value. -/
def isErrorShaped : JsonValue → Bool
  | .str s => strStartsWith s "Error"
  | .obj fs => hasKey fs "error" || jeqStr (mgetD fs "type" .null) "Error"
  | .list [x] => isErrorShaped x
  | _ => false

/-- Whether a value is a non-empty Python list. -/
def isNonEmptyList : JsonValue → Bool
  | .list (_ :: _) => true
  | _ => false

/-- No value of the mapping is `None`. -/
def noNulls (m : Mapping) : Bool :=
  m.all (fun kv => !isNull kv.2)

/-- No value of the mapping is `None`, except possibly at key `k0`. -/
def noNullsExcept (m : Mapping) (k0 : String) : Bool :=
  m.all (fun kv => kv.1 == k0 || !isNull kv.2)

/-! ## Concrete environments and worlds for the instantiations. -/

/-- An environment where connection acquisition and every dispatch raise
with message "boom", and no filesystem path exists. -/
def envFail : Env where
  getConn := .error "boom"
  send := fun _ _ => .error "boom"
  ctxSend := fun _ _ => .error "boom"
  ctxCall := fun _ _ => .error "boom"
  ctxBridge := fun _ _ => .error "boom"
  pathExists := fun _ => false
  isFile := fun _ => false
  isDir := fun _ => false
  writable := fun _ => false

/-- A connected environment whose peer holds the scene
`Assets/Scenes/X.unity` and opens it successfully. -/
def envScene : Env where
  getConn := .ok ()
  send := fun n _ =>
    if n == "GET_ASSET_LIST" then
      .ok [("assets", .list [.obj [("path", .str "Assets/Scenes/X.unity")]])]
    else if n == "OPEN_SCENE" then
      .ok [("success", .bool true), ("message", .str "Scene opened successfully")]
    else .error "unexpected command"
  ctxSend := fun _ _ => .error "no ctx"
  ctxCall := fun _ _ => .error "no ctx"
  ctxBridge := fun _ _ => .error "no ctx"
  pathExists := fun _ => true
  isFile := fun _ => false
  isDir := fun _ => true
  writable := fun _ => true

/-- A connected environment whose peer answers `FIND_OBJECTS_BY_NAME` with
`{"error": "Object not found"}` — no `objects` key. -/
def envGhost : Env where
  getConn := .ok ()
  send := fun n _ =>
    if n == "FIND_OBJECTS_BY_NAME" then .ok [("error", .str "Object not found")]
    else .error "unexpected command"
  ctxSend := fun _ _ => .error "no ctx"
  ctxCall := fun _ _ => .error "no ctx"
  ctxBridge := fun _ _ => .error "no ctx"
  pathExists := fun _ => true
  isFile := fun _ => false
  isDir := fun _ => true
  writable := fun _ => true

/-- A connected environment for the material scenario: the object exists
and `SET_MATERIAL` succeeds (with an empty response mapping). -/
def envMat : Env where
  getConn := .ok ()
  send := fun n _ =>
    if n == "FIND_OBJECTS_BY_NAME" then
      .ok [("objects", .list [.obj [("name", .str "Cube")]])]
    else if n == "SET_MATERIAL" then .ok []
    else .error "unexpected command"
  ctxSend := fun _ _ => .error "no ctx"
  ctxCall := fun _ _ => .error "no ctx"
  ctxBridge := fun _ _ => .error "no ctx"
  pathExists := fun _ => true
  isFile := fun _ => false
  isDir := fun _ => true
  writable := fun _ => true

/-- A world where the peer socket can never be opened. -/
def wDown : ConnModel.NetWorld where
  connectOk := fun _ => false
  sendOk := fun _ => false
  recv := fun _ => .timeout

/-- A world where connecting succeeds, the first write fails (stale
socket), and the retry's write and read succeed. -/
def wFlaky : ConnModel.NetWorld where
  connectOk := fun _ => true
  sendOk := fun i => i != 0
  recv := fun _ => .ok [("success", .bool true)]

/-- A world where everything succeeds at once. -/
def wUp : ConnModel.NetWorld where
  connectOk := fun _ => true
  sendOk := fun _ => true
  recv := fun _ => .ok []

end UnityMCP

/-! ## Theorems. -/

namespace UnityMCP

@[simp] theorem bind_app {α β : Type} (x : M α) (f : α → M β) (t : List SentCmd) :
    (x >>= f) t =
      match x t with
      | (.ok a, t2) => f a t2
      | (.error e, t2) => (.error e, t2) := rfl

@[simp] theorem pure_app {α : Type} (a : α) (t : List SentCmd) :
    (pure a : M α) t = (.ok a, t) := rfl

@[simp] theorem throwM_app {α : Type} (e : String) (t : List SentCmd) :
    (throwM e : M α) t = (.error e, t) := rfl

@[simp] theorem getConnM_app (env : Env) (t : List SentCmd) :
    getConnM env t = (env.getConn, t) := rfl

@[simp] theorem sendOn_app (env : Env) (ch : Channel) (name : String) (ps : Mapping)
    (t : List SentCmd) :
    sendOn env ch name ps t = (chanFn env ch name ps, t ++ [⟨ch, name, ps⟩]) := rfl

@[simp] theorem sendCmd_app (env : Env) (name : String) (ps : Mapping) (t : List SentCmd) :
    sendCmd env name ps t = (env.send name ps, t ++ [⟨.unityConn, name, ps⟩]) := rfl

/-- A body that raises makes `runCatch` return the handler's value. -/
theorem runCatch_error {α : Type} (x : M α) (h : String → α) (e : String)
    (tr : List SentCmd) (hx : x [] = (.error e, tr)) : runCatch x h = h e := by
  unfold runCatch
  rw [hx]

/-- Extending a string on the right preserves a prefix. -/
theorem strStartsWith_append (q s p : String) (h : strStartsWith q p = true) :
    strStartsWith (q ++ s) p = true := by
  unfold strStartsWith at *
  rw [String.data_append]
  rw [List.isPrefixOf_iff_prefix] at h ⊢
  exact h.trans (List.prefix_append _ _)

/-- C1: for every registered tool (the 38 tools `register_all_tools`
reaches) and every input, when the tool's try block raises — in particular
when `get_unity_connection` or any `send_command` in it raises any
exception — the tool evaluates to the value its except clause builds, and
that value is error-shaped (an error string, an error mapping, or a
one-element error list); the exception never propagates past the tool. -/
theorem C1_registered_tools_never_raise : ∀ t ∈ registeredTools,
    ∀ (env : Env) (a : ToolArgs) (e : String) (tr : List SentCmd),
    toolBody t env a [] = (.error e, tr) →
    toolRun t env a = toolHandler t env a e ∧
    isErrorShaped (toolHandler t env a e) = true := by
  intro t _ env a e tr h
  cases t <;> exact ⟨runCatch_error _ _ e tr h, rfl⟩

/-- Instantiation of C1: `open_scene` against an environment whose
connection acquisition raises "boom". -/
theorem C1_witness_open_scene_boom :
    RegTool.openScene ∈ registeredTools ∧
    toolBody RegTool.openScene envFail {} [] = (.error "boom", []) ∧
    toolRun RegTool.openScene envFail {} =
      toolHandler RegTool.openScene envFail {} "boom" :=
  ⟨by decide, rfl,
    (C1_registered_tools_never_raise RegTool.openScene (by decide) envFail {} "boom" []
      rfl).1⟩

/-- C5: connected, the project holds the scene, and the remote answers
`OPEN_SCENE` with `{"success": true, "message": "Scene opened
successfully"}` — `open_scene` returns exactly that message string. -/
theorem C5_open_scene_returns_message (env : Env) (p : String)
    (h0 : env.getConn = .ok ())
    (h1 : env.send "GET_ASSET_LIST" (SceneTools.sceneProbeParams p) =
      .ok [("assets", .list [.obj [("path", .str p)]])])
    (h2 : env.send "OPEN_SCENE" [("scene_path", .str p)] =
      .ok [("success", .bool true), ("message", .str "Scene opened successfully")]) :
    SceneTools.open_scene env p = .str "Scene opened successfully" := by
  simp [SceneTools.open_scene, SceneTools.open_scene_body, runCatch, h0, h1, h2,
    mgetD, anyKeyEqStr, anyKeyEqStrGo, jget, jeqStr, List.lookup]

/-- Instantiation of C5 at a concrete environment and scene path. -/
theorem C5_witness_scene_x :
    envScene.getConn = .ok () ∧
    SceneTools.open_scene envScene "Assets/Scenes/X.unity" =
      .str "Scene opened successfully" :=
  ⟨rfl, C5_open_scene_returns_message envScene "Assets/Scenes/X.unity" rfl rfl rfl⟩

/-- C6: connected, and the peer's `FIND_OBJECTS_BY_NAME` reply carries no
`objects` (only an error field): `delete_object` (with the default
`ignore_missing=False`) returns the not-found string — it does not raise. -/
theorem C6_delete_object_absent_returns_string (env : Env) (name : String)
    (h0 : env.getConn = .ok ())
    (h1 : env.send "FIND_OBJECTS_BY_NAME" [("name", .str name)] =
      .ok [("error", .str "Object not found")]) :
    SceneTools.delete_object env name false =
      .str ("Error: Object '" ++ name ++ "' not found in the scene.") := by
  simp [SceneTools.delete_object, SceneTools.delete_object_body, runCatch, h0, h1,
    mgetD, pyTruthy, List.lookup]

/-- Instantiation of C6 at the Ghost scenario. -/
theorem C6_witness_ghost :
    envGhost.getConn = .ok () ∧
    SceneTools.delete_object envGhost "Ghost" false =
      .str "Error: Object 'Ghost' not found in the scene." :=
  ⟨rfl, C6_delete_object_absent_returns_string envGhost "Ghost" rfl rfl⟩

/-- C7: when `get_unity_connection` raises, `get_scene_info` catches it
and returns a string beginning with "Error getting scene info:". -/
theorem C7_get_scene_info_catches_connection_error (env : Env) (e : String)
    (h : env.getConn = .error e) :
    SceneTools.get_scene_info env = .str ("Error getting scene info: " ++ e) ∧
    strStartsWith ("Error getting scene info: " ++ e) "Error getting scene info:" = true := by
  constructor
  · simp [SceneTools.get_scene_info, SceneTools.get_scene_info_body, runCatch, h]
  · exact strStartsWith_append _ _ _ (by decide)

/-- Instantiation of C7 at an environment whose connection raises. -/
theorem C7_witness_boom :
    envFail.getConn = .error "boom" ∧
    SceneTools.get_scene_info envFail = .str "Error getting scene info: boom" :=
  ⟨rfl, (C7_get_scene_info_catches_connection_error envFail "boom" rfl).1⟩

/-- The summary list the legacy `read_console` builds is never empty. -/
theorem consoleSummary_ne_nil (tp : Bool) (tot fc fa : JsonValue) (st : Option String)
    (sl sw se : Bool) :
    (EditorTools.consoleSummary tp tot fc fa st sl sw se).isEmpty = false := by
  cases tp <;> simp [EditorTools.consoleSummary]

/-- C10: for every environment and every input — connection failures,
responses with an `error` key, malformed responses, zero entries — the
legacy `read_console` returns a non-empty list: a summary entry is
prepended, or a one-element informational/error entry is substituted. -/
theorem C10_read_console_never_empty : ∀ (env : Env) (sl sw se : Bool)
    (st : Option String),
    isNonEmptyList (EditorTools.read_console env sl sw se st) = true := by
  intro env sl sw se st
  cases hg : env.getConn with
  | error e =>
      simp [EditorTools.read_console, EditorTools.read_console_body, runCatch, hg,
        isNonEmptyList]
  | ok u =>
      cases hs : env.send "EDITOR_CONTROL"
          [("command", .str "READ_CONSOLE"),
           ("params", .obj (EditorTools.read_console_params sl sw se st))] with
      | error e =>
          simp [EditorTools.read_console, EditorTools.read_console_body, runCatch, hg, hs,
            isNonEmptyList]
      | ok resp =>
          cases hk : hasKey resp "error" with
          | true =>
              simp [EditorTools.read_console, EditorTools.read_console_body, runCatch,
                hg, hs, hk, isNonEmptyList]
          | false =>
              cases htv : mgetD resp "total_entries" (.num 0) with
              | num q =>
                  cases hev : mgetD resp "entries" (.list []) with
                  | list l =>
                      simp [EditorTools.read_console, EditorTools.read_console_body,
                        runCatch, hg, hs, hk, htv, hev, jgtZero, asJList,
                        consoleSummary_ne_nil, isNonEmptyList]
                  | null =>
                      simp [EditorTools.read_console, EditorTools.read_console_body,
                        runCatch, hg, hs, hk, htv, hev, jgtZero, asJList, isNonEmptyList]
                  | bool b2 =>
                      simp [EditorTools.read_console, EditorTools.read_console_body,
                        runCatch, hg, hs, hk, htv, hev, jgtZero, asJList, isNonEmptyList]
                  | num q2 =>
                      simp [EditorTools.read_console, EditorTools.read_console_body,
                        runCatch, hg, hs, hk, htv, hev, jgtZero, asJList, isNonEmptyList]
                  | str s2 =>
                      simp [EditorTools.read_console, EditorTools.read_console_body,
                        runCatch, hg, hs, hk, htv, hev, jgtZero, asJList, isNonEmptyList]
                  | obj fs =>
                      simp [EditorTools.read_console, EditorTools.read_console_body,
                        runCatch, hg, hs, hk, htv, hev, jgtZero, asJList, isNonEmptyList]
              | bool b =>
                  cases hev : mgetD resp "entries" (.list []) with
                  | list l =>
                      simp [EditorTools.read_console, EditorTools.read_console_body,
                        runCatch, hg, hs, hk, htv, hev, jgtZero, asJList,
                        consoleSummary_ne_nil, isNonEmptyList]
                  | null =>
                      simp [EditorTools.read_console, EditorTools.read_console_body,
                        runCatch, hg, hs, hk, htv, hev, jgtZero, asJList, isNonEmptyList]
                  | bool b2 =>
                      simp [EditorTools.read_console, EditorTools.read_console_body,
                        runCatch, hg, hs, hk, htv, hev, jgtZero, asJList, isNonEmptyList]
                  | num q2 =>
                      simp [EditorTools.read_console, EditorTools.read_console_body,
                        runCatch, hg, hs, hk, htv, hev, jgtZero, asJList, isNonEmptyList]
                  | str s2 =>
                      simp [EditorTools.read_console, EditorTools.read_console_body,
                        runCatch, hg, hs, hk, htv, hev, jgtZero, asJList, isNonEmptyList]
                  | obj fs =>
                      simp [EditorTools.read_console, EditorTools.read_console_body,
                        runCatch, hg, hs, hk, htv, hev, jgtZero, asJList, isNonEmptyList]
              | null =>
                  simp [EditorTools.read_console, EditorTools.read_console_body, runCatch,
                    hg, hs, hk, htv, jgtZero, isNonEmptyList]
              | str s =>
                  simp [EditorTools.read_console, EditorTools.read_console_body, runCatch,
                    hg, hs, hk, htv, jgtZero, isNonEmptyList]
              | list l =>
                  simp [EditorTools.read_console, EditorTools.read_console_body, runCatch,
                    hg, hs, hk, htv, jgtZero, isNonEmptyList]
              | obj fs =>
                  simp [EditorTools.read_console, EditorTools.read_console_body, runCatch,
                    hg, hs, hk, htv, jgtZero, isNonEmptyList]

/-- The generic encode leaves no null value (spec-modelled: §4.2 drops
every `None`-valued key). -/
theorem noNulls_specEncode (m : Mapping) : noNulls (ConnModel.specEncode m) = true := by
  simp only [ConnModel.specEncode, filterNulls, noNulls, List.all_eq_true, List.mem_filter]
  intro kv h
  exact h.2

/-- C2: every `None`-valued key of a tool-built params mapping is removed
before transmission, except keys marked preserve-null: (a) the new
`read_console` always transmits `count` — an explicit null exactly when
the caller passed `None` — and drops every other `None`-valued key;
(b) `manage_scene` transmits no nulls at all; (c) the connection-layer
encode drops every `None`-valued key of any params mapping, (d) in
particular the null `type` built by the legacy `get_asset_list`. -/
theorem C2_none_keys_dropped_except_count :
    (∀ (action : Option String) (types : Option (List JsonValue)) (count : Option Int)
        (ft st fmt : Option String) (ist : Option Bool),
      hasKey (NewTools.read_console_params action types count ft st fmt ist) "count" = true ∧
      mgetD (NewTools.read_console_params action types count ft st fmt ist) "count" .null =
        optIntJ count ∧
      noNullsExcept (NewTools.read_console_params action types count ft st fmt ist)
        "count" = true) ∧
    (∀ (action : String) (name path : Option String) (bi : Option Int),
      noNulls (NewTools.manage_scene_params action name path bi) = true) ∧
    (∀ m : Mapping, noNulls (ConnModel.specEncode m) = true) ∧
    (∀ (ty : Option String) (sp f : String),
      noNulls (ConnModel.specEncode (ObjectTools.get_asset_list_params ty sp f)) = true) := by
  refine ⟨?_, ?_, noNulls_specEncode, ?_⟩
  · intro action types count ft st fmt ist
    cases count <;> cases ft <;> cases st <;> cases ist <;> exact ⟨rfl, rfl, rfl⟩
  · intro action name path bi
    cases name <;> cases path <;> cases bi <;> rfl
  · intro ty sp f
    exact noNulls_specEncode _

/-- Every message the colour-validation loop produces starts with "Error". -/
theorem colorCheck_msg_error : ∀ (l : List JsonValue) (i : Nat) (msg : String),
    MaterialTools.colorCheck l i = some msg → strStartsWith msg "Error" = true := by
  intro l
  induction l with
  | nil => intro i msg h; simp [MaterialTools.colorCheck] at h
  | cons v rest ih =>
      intro i msg h
      cases v with
      | num q =>
          rw [MaterialTools.colorCheck] at h
          by_cases hq : q < 0 ∨ q > 1
          · simp [hq] at h
            subst h
            rfl
          · simp [hq] at h
            exact ih _ _ h
      | bool b =>
          rw [MaterialTools.colorCheck] at h
          exact ih _ _ h
      | null => simp [MaterialTools.colorCheck] at h; subst h; rfl
      | str s => simp [MaterialTools.colorCheck] at h; subst h; rfl
      | list xs => simp [MaterialTools.colorCheck] at h; subst h; rfl
      | obj fs => simp [MaterialTools.colorCheck] at h; subst h; rfl

/-- C8 counterexample: the empty colour list — a list whose length is
neither 3 nor 4 — is not rejected: the validation is skipped (`if color:`
is falsy on `[]`), `SET_MATERIAL` is sent, and the result is a success
string, not an error. -/
theorem C8_counterexample_empty_color :
    ([] : List JsonValue).length ≠ 3 ∧ ([] : List JsonValue).length ≠ 4 ∧
    (runTrace (MaterialTools.set_material_body envMat "Cube" none (some []) true)).any
      (fun cmd => cmd.name == "SET_MATERIAL") = true ∧
    MaterialTools.set_material envMat "Cube" none (some []) true =
      .str "Applied instance material 'unknown' to Cube" ∧
    strStartsWith "Applied instance material 'unknown' to Cube" "Error" = false := by
  refine ⟨by decide, by decide, ?_, ?_, by decide⟩ <;> rfl

/-- C8 amended: for a connected environment in which the target object
exists and no material name is given, any *non-empty* colour list that
does not have exactly 3 or 4 components, or whose validation loop flags a
component (not a number, or outside [0.0, 1.0]), makes `set_material`
return an error string without sending `SET_MATERIAL`; and any colour list
that passes the validation leads to `SET_MATERIAL` being sent. -/
theorem C8_amended_color_validation :
    (∀ (env : Env) (object_name : String) (cim : Bool) (c : List JsonValue) (fresp : Mapping),
      env.getConn = .ok () →
      env.send "FIND_OBJECTS_BY_NAME" [("name", .str object_name)] = .ok fresp →
      pyTruthy (mgetD fresp "objects" (.list [])) = true →
      c ≠ [] →
      (¬(c.length = 3 ∨ c.length = 4) ∨ MaterialTools.colorCheck c 0 ≠ none) →
      (∃ s, MaterialTools.set_material env object_name none (some c) cim = .str s ∧
        strStartsWith s "Error" = true) ∧
      (runTrace (MaterialTools.set_material_body env object_name none (some c) cim)).all
        (fun cmd => !(cmd.name == "SET_MATERIAL")) = true) ∧
    (∀ (env : Env) (object_name : String) (cim : Bool) (c : List JsonValue) (fresp : Mapping),
      env.getConn = .ok () →
      env.send "FIND_OBJECTS_BY_NAME" [("name", .str object_name)] = .ok fresp →
      pyTruthy (mgetD fresp "objects" (.list [])) = true →
      (c.length = 3 ∨ c.length = 4) →
      MaterialTools.colorCheck c 0 = none →
      (runTrace (MaterialTools.set_material_body env object_name none (some c) cim)).any
        (fun cmd => cmd.name == "SET_MATERIAL") = true) := by
  constructor
  · intro env object_name cim c fresp h0 h1 h2 hne hbad
    cases c with
    | nil => exact absurd rfl hne
    | cons v cs =>
        by_cases hl : (v :: cs).length = 3 ∨ (v :: cs).length = 4
        · have hcs : cs.length = 2 ∨ cs.length = 3 := by
            rcases hl with h | h
            · left; simp only [List.length_cons] at h; omega
            · right; simp only [List.length_cons] at h; omega
          rcases hbad with hlen | hcc
          · exact absurd hl hlen
          · cases hcc2 : MaterialTools.colorCheck (v :: cs) 0 with
            | none => exact absurd hcc2 hcc
            | some msg =>
                refine ⟨⟨msg, ?_, colorCheck_msg_error _ _ _ hcc2⟩, ?_⟩
                · rcases hcs with h | h <;>
                    simp [MaterialTools.set_material, MaterialTools.set_material_body,
                      runCatch, h0, h1, h2, h, hcc2, MaterialTools.colorTruthy,
                      optStrTruthy]
                · rcases hcs with h | h <;>
                    simp [MaterialTools.set_material_body, runTrace, h0, h1, h2, h, hcc2,
                      MaterialTools.colorTruthy, optStrTruthy]
        · have hc2 : ¬cs.length = 2 := fun h =>
            hl (Or.inl (by simp only [List.length_cons]; omega))
          have hc3 : ¬cs.length = 3 := fun h =>
            hl (Or.inr (by simp only [List.length_cons]; omega))
          refine ⟨⟨"Error: Color must have 3 (RGB) or 4 (RGBA) components, but got " ++
              toString (v :: cs).length ++ ".", ?_, ?_⟩, ?_⟩
          · simp [MaterialTools.set_material, MaterialTools.set_material_body,
              runCatch, h0, h1, h2, hc2, hc3, MaterialTools.colorTruthy, optStrTruthy]
          · exact strStartsWith_append _ _ _ (strStartsWith_append _ _ _ (by decide))
          · simp [MaterialTools.set_material_body, runTrace, h0, h1, h2, hc2, hc3,
              MaterialTools.colorTruthy, optStrTruthy]
  · intro env object_name cim c fresp h0 h1 h2 hlen hcc
    cases c with
    | nil => simp at hlen
    | cons v cs =>
        have hcs : cs.length = 2 ∨ cs.length = 3 := by
          rcases hlen with h | h
          · left; simp only [List.length_cons] at h; omega
          · right; simp only [List.length_cons] at h; omega
        cases hsm : env.send "SET_MATERIAL"
            (MaterialTools.set_material_params object_name none (some (v :: cs)) cim) with
        | error e =>
            rcases hcs with h | h <;>
              simp [MaterialTools.set_material_body, runTrace, h0, h1, h2, h, hcc, hsm,
                MaterialTools.colorTruthy, optStrTruthy]
        | ok r =>
            cases hp : pyTruthy (mgetD r "path" JsonValue.null) <;>
              rcases hcs with h | h <;>
              simp [MaterialTools.set_material_body, runTrace, h0, h1, h2, h, hcc, hsm,
                hp, MaterialTools.colorTruthy, optStrTruthy]

/-- Instantiation of the amended C8: a one-component colour list is
rejected with an error string and `SET_MATERIAL` is never sent. -/
theorem C8_witness_bad_length :
    (∃ s, MaterialTools.set_material envMat "Cube" none (some [.num 2]) true = .str s ∧
      strStartsWith s "Error" = true) ∧
    (runTrace (MaterialTools.set_material_body envMat "Cube" none (some [.num 2]) true)).all
      (fun cmd => !(cmd.name == "SET_MATERIAL")) = true :=
  C8_amended_color_validation.1 envMat "Cube" true [.num 2]
    [("objects", .list [.obj [("name", .str "Cube")]])] rfl rfl rfl
    (List.cons_ne_nil _ _) (Or.inl (by decide))

/-- Every request envelope a `send_command` call writes carries the given
command name unchanged and the encoded params (one attempt writes at most
one envelope). -/
theorem oneAttempt_requests (cfg : ConnModel.ConnCfg) (w : ConnModel.NetWorld)
    (conn : Bool) (c a : Nat) (ty : String) (ps : Mapping) :
    ∀ r ∈ (ConnModel.oneAttempt cfg w conn c a ty ps).requests,
      r = ConnModel.requestEnvelope ty ps := by
  intro r hr
  unfold ConnModel.oneAttempt at hr
  dsimp only at hr
  by_cases hc : conn
  · simp only [hc, if_true] at hr
    cases hs : w.sendOk a <;> simp only [hs] at hr
    · simp at hr
      exact hr
    · cases hrcv : w.recv a <;> simp [hrcv] at hr <;> exact hr
  · simp only [hc, if_false] at hr
    cases hcg : (ConnModel.connectGo w cfg.retry_delay c cfg.max_retries).1 <;>
      simp only [hcg] at hr
    · simp at hr
    · cases hs : w.sendOk a <;> simp only [hs] at hr
      · simp at hr
        exact hr
      · cases hrcv : w.recv a <;> simp [hrcv] at hr <;> exact hr

/-- The codec treats the command name as an opaque string: every envelope
`send_command` writes is `(type, specEncode params)` with the name
unchanged. -/
theorem sendCommandModel_requests_opaque (cfg : ConnModel.ConnCfg)
    (w : ConnModel.NetWorld) (conn : Bool) (ty : String) (ps : Mapping) :
    ∀ r ∈ (ConnModel.sendCommandModel cfg w conn ty ps).requests,
      r.1 = ty ∧ r.2 = ConnModel.specEncode ps := by
  intro r hr
  unfold ConnModel.sendCommandModel at hr
  dsimp only at hr
  have key : r = ConnModel.requestEnvelope ty ps := by
    split at hr
    · exact oneAttempt_requests _ _ _ _ _ _ _ _ hr
    · exact oneAttempt_requests _ _ _ _ _ _ _ _ hr
    · split at hr <;>
        (rcases List.mem_append.mp hr with h | h
         · exact oneAttempt_requests _ _ _ _ _ _ _ _ h
         · exact oneAttempt_requests _ _ _ _ _ _ _ _ h)
  subst key
  exact ⟨rfl, rfl⟩

/-- C9 counterexample: the newer-family command `read_console` is not
passed through the `send_command` encode/transmit path at all — its sole
dispatch is a `ctx.bridge` method call named `HandleReadConsole`. -/
theorem C9_counterexample_read_console_path :
    ((NewTools.read_console_run envFail none none none none none none none).2.map
      (fun c => (c.channel, c.name)) = [(Channel.ctxBridge, "HandleReadConsole")]) ∧
    ((NewTools.read_console_run envFail none none none none none none none).2.all
      (fun c => !(c.channel == Channel.unityConn)) = true) ∧
    ((NewTools.read_console_run envFail none none none none none none none).2.all
      (fun c => !(c.name == "read_console")) = true) :=
  ⟨rfl, rfl, rfl⟩

/-- C9 amended: every command name that is transmitted through
`UnityConnection.send_command` is passed unchanged as an opaque string —
the legacy upper-snake-case names from the registered tools, and
`manage_scene`/`manage_editor`/`manage_script`/`manage_gameobject` from
the newer family; the spec-modelled codec writes the name verbatim into
the envelope.  But the newer family is not dispatched uniformly:
`read_console` goes through a `ctx.bridge` method call, `manage_asset`
through `ctx.send_command`, and `execute_menu_item` through `ctx.call`
aimed at a C# handler target. -/
theorem C9_amended_command_name_paths :
    (∀ (env : Env), env.getConn = .ok () →
      (runTrace (SceneTools.get_scene_info_body env)).map (fun c => (c.channel, c.name)) =
        [(Channel.unityConn, "GET_SCENE_INFO")] ∧
      (runTrace (SceneTools.save_scene_body env)).map (fun c => (c.channel, c.name)) =
        [(Channel.unityConn, "SAVE_SCENE")] ∧
      (runTrace (ObjectTools.get_hierarchy_body env)).map (fun c => (c.channel, c.name)) =
        [(Channel.unityConn, "GET_HIERARCHY")]) ∧
    (∀ (env : Env) (p : String) (sc : Bool), env.getConn = .ok () →
      (runTrace (SceneTools.change_scene_body env p sc)).map (fun c => (c.channel, c.name)) =
        [(Channel.unityConn, "CHANGE_SCENE")]) ∧
    (∀ (env : Env) (action : String) (name path : Option String) (bi : Option Int),
      env.getConn = .ok () →
      (runTrace (NewTools.manage_scene_body env action name path bi)).map
        (fun c => (c.channel, c.name)) = [(Channel.unityConn, "manage_scene")]) ∧
    (∀ (env : Env) (action : String) (wfc : Option Bool) (tn tg ln : Option String),
      env.getConn = .ok () →
      (runTrace (NewTools.manage_editor_body env action wfc tn tg ln)).map
        (fun c => (c.channel, c.name)) = [(Channel.unityConn, "manage_editor")]) ∧
    (∀ (env : Env) (action name : String) (p ct st ns : Option String),
      env.getConn = .ok () →
      (runTrace (NewTools.manage_script_body env action name p ct st ns)).map
        (fun c => (c.channel, c.name)) = [(Channel.unityConn, "manage_script")]) ∧
    (∀ (env : Env) (ps : Mapping), env.getConn = .ok () →
      (runTrace (NewTools.manage_gameobject_send env ps)).map
        (fun c => (c.channel, c.name)) = [(Channel.unityConn, "manage_gameobject")]) ∧
    (∀ (env : Env) (action : Option String) (types : Option (List JsonValue))
        (count : Option Int) (ft st fmt : Option String) (ist : Option Bool),
      (NewTools.read_console_run env action types count ft st fmt ist).2.map
        (fun c => (c.channel, c.name)) = [(Channel.ctxBridge, "HandleReadConsole")]) ∧
    (∀ (env : Env) (action path : String) (at_ : Option String) (props : Option Mapping)
        (dest : Option String) (gp : Option Bool) (sp ftp fda : Option String)
        (pgs pgn : Option Int),
      (NewTools.manage_asset_run env action path at_ props dest gp sp ftp fda
        pgs pgn).2.map (fun c => (c.channel, c.name)) =
        [(Channel.ctxSend, "manage_asset")]) ∧
    (∀ (env : Env) (mp : String) (action : Option String) (params : Option Mapping),
      (NewTools.execute_menu_item_run env mp action params).2.map
        (fun c => (c.channel, c.name)) =
        [(Channel.ctxCall, "UnityMCP.Editor.Tools.ExecuteMenuItem.HandleCommand")]) ∧
    (∀ (cfg : ConnModel.ConnCfg) (w : ConnModel.NetWorld) (conn : Bool) (ty : String)
        (ps : Mapping),
      ∀ r ∈ (ConnModel.sendCommandModel cfg w conn ty ps).requests,
        r.1 = ty ∧ r.2 = ConnModel.specEncode ps) := by
  refine ⟨?_, ?_, ?_, ?_, ?_, ?_, ?_, ?_, ?_, sendCommandModel_requests_opaque⟩
  · intro env h
    refine ⟨?_, ?_, ?_⟩
    · cases hs : env.send "GET_SCENE_INFO" [] <;>
        simp [SceneTools.get_scene_info_body, runTrace, h, hs]
    · cases hs : env.send "SAVE_SCENE" [] <;>
        simp [SceneTools.save_scene_body, runTrace, h, hs]
    · cases hs : env.send "GET_HIERARCHY" [] <;>
        simp [ObjectTools.get_hierarchy_body, runTrace, h, hs]
  · intro env p sc h
    cases hs : env.send "CHANGE_SCENE" [("scene_path", .str p), ("save_current", .bool sc)] <;>
      simp [SceneTools.change_scene_body, runTrace, h, hs]
  · intro env action name path bi h
    cases hs : env.send "manage_scene" (NewTools.manage_scene_params action name path bi) with
    | error e => simp [NewTools.manage_scene_body, runTrace, h, hs]
    | ok r =>
        cases hp : pyTruthy (mgetD r "success" JsonValue.null) <;>
          simp [NewTools.manage_scene_body, runTrace, h, hs, hp]
  · intro env action wfc tn tg ln h
    cases hs : env.send "manage_editor"
        (NewTools.manage_editor_params action wfc tn tg ln) with
    | error e => simp [NewTools.manage_editor_body, runTrace, h, hs]
    | ok r =>
        cases hp : pyTruthy (mgetD r "success" JsonValue.null) <;>
          simp [NewTools.manage_editor_body, runTrace, h, hs, hp]
  · intro env action name p ct st ns h
    cases hs : env.send "manage_script"
        (NewTools.manage_script_params action name p ct st ns) with
    | error e => simp [NewTools.manage_script_body, runTrace, h, hs]
    | ok r =>
        cases hp : pyTruthy (mgetD r "success" JsonValue.null) <;>
          simp [NewTools.manage_script_body, runTrace, h, hs, hp]
  · intro env ps h
    cases hs : env.send "manage_gameobject"
        (ps.filter (fun kv => !(kv.1 == "prefab_folder"))) with
    | error e => simp [NewTools.manage_gameobject_send, runTrace, h, hs]
    | ok r =>
        cases hp : pyTruthy (mgetD r "success" JsonValue.null) <;>
          simp [NewTools.manage_gameobject_send, runTrace, h, hs, hp]
  · intro env action types count ft st fmt ist
    rfl
  · intro env action path at_ props dest gp sp ftp fda pgs pgn
    rfl
  · intro env mp action params
    rfl

/-- Instantiation of the amended C9: `manage_scene` transmits its
lower-snake-case name unchanged on the connection channel, and the codec
writes a legacy name verbatim into the envelope. -/
theorem C9_witness_manage_scene_and_codec :
    (runTrace (NewTools.manage_scene_body envGhost "load" none none none)).map
      (fun c => (c.channel, c.name)) = [(Channel.unityConn, "manage_scene")] ∧
    ((ConnModel.requestEnvelope "OPEN_SCENE" [("scene_path", JsonValue.null)]).1 =
        "OPEN_SCENE" ∧
      (ConnModel.requestEnvelope "OPEN_SCENE" [("scene_path", JsonValue.null)]).2 =
        ConnModel.specEncode [("scene_path", JsonValue.null)]) :=
  ⟨C9_amended_command_name_paths.2.2.1 envGhost "load" none none none rfl,
   C9_amended_command_name_paths.2.2.2.2.2.2.2.2.2 ⟨1, 0⟩ wUp true "OPEN_SCENE"
     [("scene_path", JsonValue.null)]
     (ConnModel.requestEnvelope "OPEN_SCENE" [("scene_path", JsonValue.null)])
     (List.Mem.head _)⟩

/-- Failing connect attempts: `k` attempts are made from index `i`, the
result is failure, and exactly `k - 1` fixed-delay sleeps lie between
them. -/
theorem connectGo_allFail (w : ConnModel.NetWorld) (d : ℚ)
    (h : ∀ i, w.connectOk i = false) : ∀ (k i : Nat),
    (ConnModel.connectGo w d i k).1 = false ∧
    ConnModel.countConn (ConnModel.connectGo w d i k).2.2 = k ∧
    ConnModel.sleepDelays (ConnModel.connectGo w d i k).2.2 =
      List.replicate (k - 1) d := by
  intro k
  induction k with
  | zero => intro i; exact ⟨rfl, rfl, rfl⟩
  | succ k ih =>
      intro i
      by_cases hk : k = 0
      · subst hk
        simp [ConnModel.connectGo, h i, ConnModel.countConn, ConnModel.sleepDelays]
      · obtain ⟨h1, h2, h3⟩ := ih (i + 1)
        simp only [ConnModel.connectGo, h i, if_false, hk, Bool.false_eq_true]
        refine ⟨h1, ?_, ?_⟩
        · simp only [ConnModel.countConn, List.filter] at h2 ⊢
          simp [h2]
        · simp only [ConnModel.sleepDelays, List.filterMap] at h3 ⊢
          rw [h3, show k + 1 - 1 = (k - 1) + 1 by omega, List.replicate_succ]

/-- C3: with the peer socket never openable, `send_command` starting
disconnected makes exactly `max_retries` connect attempts separated by
fixed `retry_delay` sleeps (not exponential), raises `ConnectionError`,
and leaves the connection flag false.  (Spec-modelled:
`unity_connection.py` is not among the staged sources.) -/
theorem C3_connect_exhausts_retries_then_raises (cfg : ConnModel.ConnCfg)
    (w : ConnModel.NetWorld) (ty : String) (ps : Mapping)
    (h : ∀ i, w.connectOk i = false) :
    (ConnModel.sendCommandModel cfg w false ty ps).result =
      .error ConnModel.SendErr.connectionError ∧
    (ConnModel.sendCommandModel cfg w false ty ps).connected = false ∧
    ConnModel.countConn (ConnModel.sendCommandModel cfg w false ty ps).events =
      cfg.max_retries ∧
    ConnModel.sleepDelays (ConnModel.sendCommandModel cfg w false ty ps).events =
      List.replicate (cfg.max_retries - 1) cfg.retry_delay := by
  obtain ⟨h1, h2, h3⟩ := connectGo_allFail w cfg.retry_delay h cfg.max_retries 0
  simp [ConnModel.sendCommandModel, ConnModel.oneAttempt, h1, h2, h3]

/-- Instantiation of C3: three retries, delay 2, peer down. -/
theorem C3_witness_peer_down :
    (ConnModel.sendCommandModel ⟨3, 2⟩ wDown false "GET_SCENE_INFO" []).result =
      .error ConnModel.SendErr.connectionError ∧
    (ConnModel.sendCommandModel ⟨3, 2⟩ wDown false "GET_SCENE_INFO" []).connected = false ∧
    ConnModel.countConn
      (ConnModel.sendCommandModel ⟨3, 2⟩ wDown false "GET_SCENE_INFO" []).events = 3 ∧
    ConnModel.sleepDelays
      (ConnModel.sendCommandModel ⟨3, 2⟩ wDown false "GET_SCENE_INFO" []).events =
      List.replicate 2 2 :=
  C3_connect_exhausts_retries_then_raises ⟨3, 2⟩ wDown "GET_SCENE_INFO" [] (fun _ => rfl)

/-- No connect attempt is a write. -/
theorem countWrites_connectGo (w : ConnModel.NetWorld) (d : ℚ) : ∀ (k i : Nat),
    ConnModel.countWrites (ConnModel.connectGo w d i k).2.2 = 0 := by
  intro k
  induction k with
  | zero => intro i; rfl
  | succ k ih =>
      intro i
      by_cases hc : w.connectOk i
      · simp [ConnModel.connectGo, hc, ConnModel.countWrites]
      · by_cases hk : k = 0
        · subst hk
          simp [ConnModel.connectGo, hc, ConnModel.countWrites]
        · have := ih (i + 1)
          simp only [ConnModel.connectGo, hc, if_false, hk, Bool.false_eq_true] at this ⊢
          simp only [ConnModel.countWrites, List.filter] at this ⊢
          simpa using this

/-- Connect attempts and sleeps are the only events of the connect loop. -/
theorem connectGo_no_writes (w : ConnModel.NetWorld) (d : ℚ) : ∀ (k i : Nat),
    ∀ e ∈ (ConnModel.connectGo w d i k).2.2,
      (match e with
        | ConnModel.NetEv.writeAttempt _ _ => true
        | _ => false) = false := by
  intro k
  induction k with
  | zero => intro i e he; simp [ConnModel.connectGo] at he
  | succ k ih =>
      intro i e he
      by_cases hc : w.connectOk i
      · simp [ConnModel.connectGo, hc] at he
        subst he; rfl
      · by_cases hk : k = 0
        · subst hk
          simp [ConnModel.connectGo, hc] at he
          subst he; rfl
        · simp [ConnModel.connectGo, hc, hk] at he
          rcases he with he | he | he
          · subst he; rfl
          · subst he; rfl
          · exact ih (i + 1) e he

/-- One attempt writes at most one frame. -/
theorem countWrites_oneAttempt (cfg : ConnModel.ConnCfg) (w : ConnModel.NetWorld)
    (conn : Bool) (c a : Nat) (ty : String) (ps : Mapping) :
    ConnModel.countWrites (ConnModel.oneAttempt cfg w conn c a ty ps).events ≤ 1 := by
  unfold ConnModel.oneAttempt
  dsimp only
  by_cases hc : conn
  · simp only [hc, if_true]
    cases hs : w.sendOk a
    · simp [hs, ConnModel.countWrites]
    · cases hrcv : w.recv a <;> simp [hs, hrcv, ConnModel.countWrites]
  · simp only [hc, if_false]
    cases hcg : (ConnModel.connectGo w cfg.retry_delay c cfg.max_retries).1
    · simp [hcg, countWrites_connectGo]
    · cases hs : w.sendOk a
      · simp [hcg, hs, ConnModel.countWrites, List.filter_append]
        exact connectGo_no_writes w cfg.retry_delay cfg.max_retries c
      · cases hrcv : w.recv a <;>
          (simp [hcg, hs, hrcv, ConnModel.countWrites, List.filter_append]
           exact connectGo_no_writes w cfg.retry_delay cfg.max_retries c)

/-- `countWrites` distributes over append. -/
theorem countWrites_append (a b : List ConnModel.NetEv) :
    ConnModel.countWrites (a ++ b) =
      ConnModel.countWrites a + ConnModel.countWrites b := by
  simp [ConnModel.countWrites, List.filter_append]

/-- C4: a send/receive failure triggers exactly one transparent
reconnect-and-retry cycle.  (i) never more than one: every call writes at
most two frames; (ii) first write fails and the peer is unreachable: the
reconnect is attempted (`ConnectionError`, one write only); (iii) first
write fails, reconnect succeeds, the retry's write fails too:
`ConnectionError` propagates after exactly two writes; (iv) first write
fails, reconnect and retry succeed: the response is returned after exactly
two writes and exactly one reconnect attempt.  (Spec-modelled.) -/
theorem C4_one_reconnect_retry_cycle :
    (∀ (cfg : ConnModel.ConnCfg) (w : ConnModel.NetWorld) (conn : Bool) (ty : String)
        (ps : Mapping),
      ConnModel.countWrites (ConnModel.sendCommandModel cfg w conn ty ps).events ≤ 2) ∧
    (∀ (cfg : ConnModel.ConnCfg) (w : ConnModel.NetWorld) (ty : String) (ps : Mapping),
      w.sendOk 0 = false → (∀ i, w.connectOk i = false) →
      (ConnModel.sendCommandModel cfg w true ty ps).result =
        .error ConnModel.SendErr.connectionError ∧
      ConnModel.countWrites (ConnModel.sendCommandModel cfg w true ty ps).events = 1) ∧
    (∀ (cfg : ConnModel.ConnCfg) (w : ConnModel.NetWorld) (ty : String) (ps : Mapping),
      w.sendOk 0 = false → w.connectOk 0 = true → 1 ≤ cfg.max_retries →
      w.sendOk 1 = false →
      (ConnModel.sendCommandModel cfg w true ty ps).result =
        .error ConnModel.SendErr.connectionError ∧
      ConnModel.countWrites (ConnModel.sendCommandModel cfg w true ty ps).events = 2) ∧
    (∀ (cfg : ConnModel.ConnCfg) (w : ConnModel.NetWorld) (ty : String) (ps : Mapping)
        (m : Mapping),
      w.sendOk 0 = false → w.connectOk 0 = true → 1 ≤ cfg.max_retries →
      w.sendOk 1 = true → w.recv 1 = .ok m →
      (ConnModel.sendCommandModel cfg w true ty ps).result = .ok m ∧
      ConnModel.countWrites (ConnModel.sendCommandModel cfg w true ty ps).events = 2 ∧
      ConnModel.countConn (ConnModel.sendCommandModel cfg w true ty ps).events = 1) := by
  refine ⟨?_, ?_, ?_, ?_⟩
  · intro cfg w conn ty ps
    unfold ConnModel.sendCommandModel
    dsimp only
    split
    · exact Nat.le_trans (countWrites_oneAttempt cfg w conn 0 0 ty ps) (by omega)
    · exact Nat.le_trans (countWrites_oneAttempt cfg w conn 0 0 ty ps) (by omega)
    · split <;>
        (show ConnModel.countWrites ((ConnModel.oneAttempt cfg w conn 0 0 ty ps).events ++
            (ConnModel.oneAttempt cfg w false
              (ConnModel.oneAttempt cfg w conn 0 0 ty ps).cIdx 1 ty ps).events) ≤ 2
         rw [countWrites_append]
         have ha := countWrites_oneAttempt cfg w conn 0 0 ty ps
         have hb := countWrites_oneAttempt cfg w false
           (ConnModel.oneAttempt cfg w conn 0 0 ty ps).cIdx 1 ty ps
         omega)
  · intro cfg w ty ps hs0 hcf
    obtain ⟨h1, _, _⟩ := connectGo_allFail w cfg.retry_delay hcf cfg.max_retries 0
    constructor
    · simp [ConnModel.sendCommandModel, ConnModel.oneAttempt, hs0, h1]
    · simp [ConnModel.sendCommandModel, ConnModel.oneAttempt, hs0, h1,
        ConnModel.countWrites, List.filter_append]
      exact connectGo_no_writes w cfg.retry_delay cfg.max_retries 0
  · intro cfg w ty ps hs0 hc0 hmr hs1
    obtain ⟨k, hk⟩ : ∃ k, cfg.max_retries = k + 1 := ⟨cfg.max_retries - 1, by omega⟩
    simp [ConnModel.sendCommandModel, ConnModel.oneAttempt, hs0, hs1, hc0, hk,
      ConnModel.connectGo, ConnModel.countWrites, List.filter_append]
  · intro cfg w ty ps m hs0 hc0 hmr hs1 hrecv
    obtain ⟨k, hk⟩ : ∃ k, cfg.max_retries = k + 1 := ⟨cfg.max_retries - 1, by omega⟩
    simp [ConnModel.sendCommandModel, ConnModel.oneAttempt, hs0, hs1, hc0, hrecv, hk,
      ConnModel.connectGo, ConnModel.countWrites, ConnModel.countConn,
      List.filter_append]

/-- Instantiation of C4: a stale connected socket whose first write
fails; the single reconnect-and-retry delivers the response after exactly
two writes and one reconnect. -/
theorem C4_witness_stale_socket :
    (ConnModel.sendCommandModel ⟨3, 1⟩ wFlaky true "OPEN_SCENE" []).result =
      .ok [("success", .bool true)] ∧
    ConnModel.countWrites
      (ConnModel.sendCommandModel ⟨3, 1⟩ wFlaky true "OPEN_SCENE" []).events = 2 ∧
    ConnModel.countConn
      (ConnModel.sendCommandModel ⟨3, 1⟩ wFlaky true "OPEN_SCENE" []).events = 1 :=
  C4_one_reconnect_retry_cycle.2.2.2 ⟨3, 1⟩ wFlaky "OPEN_SCENE" []
    [("success", .bool true)] rfl rfl (by decide) rfl rfl

end UnityMCP
